import Mathlib

/-!
Verification of the WikiDP portal response-shaping logic.

This file shallowly embeds the core functions of the repository
(`wikidp/utils/__init__.py`, `wikidp/utils.py`, `wikidp/utils/wd_int_utils.py`,
`wikidp/controllers/search.py`, `wikidp/controllers/api.py`) as executable
Lean definitions, and proves or refutes the specification claims about them.

Python values are modelled by `PyVal`; Python exceptions by `PyExc` and the
`Except PyExc` monad; external collaborators (the SPARQL endpoint, the
entity-JSON fetch, the Wikimedia Commons image API, the `validators.url`
library, the text search) are parameters collected in environment structures,
so every embedded function is a pure function of its inputs and the
collaborators' responses.
-/

/-- Model of a Python/JSON value as manipulated by the portal code.
`float s` abstracts the Python value `float(s)` by the string it was parsed
from (the code never computes with floats, it only stores them). Dictionaries
are insertion-ordered key/value lists with string keys, as all dictionaries
handled by this code have string keys. -/
inductive PyVal where
  | str (s : String)
  | int (n : Int)
  | float (s : String)
  | bool (b : Bool)
  | none
  | list (xs : List PyVal)
  | dict (xs : List (String × PyVal))
deriving Repr

/-- Python exceptions raised by the embedded code. -/
inductive PyExc where
  | keyError
  | typeError
  | attributeError
  | valueError
deriving Repr, DecidableEq

/-- Python truthiness (`bool(v)`): `None`, `False`, `0`, `""`, `[]`, `{}` are
falsy, everything else is truthy. The code never branches on the truthiness
of a stored float, so floats are conservatively treated as truthy. -/
def PyVal.truthy : PyVal → Bool
  | .str s => s != ""
  | .int n => n != 0
  | .float _ => true
  | .bool b => b
  | .none => false
  | .list xs => !xs.isEmpty
  | .dict xs => !xs.isEmpty

/-- Python `v == lit` for a string literal `lit`: true exactly when `v` is the
equal string (all equality tests in the embedded code compare against string
literals). -/
def PyVal.eqStr (v : PyVal) (lit : String) : Bool :=
  match v with
  | .str t => t == lit
  | _ => false

/-- Python `d[k]` on a string key: `KeyError` if the key is missing,
`TypeError` if the receiver is not a dictionary. -/
def PyVal.getItem (v : PyVal) (k : String) : Except PyExc PyVal :=
  match v with
  | .dict xs =>
    match xs.lookup k with
    | some w => .ok w
    | Option.none => .error .keyError
  | _ => .error .typeError

/-- Python `d.get(k, default)`: `AttributeError` if the receiver is not a
dictionary. -/
def PyVal.getD (v : PyVal) (k : String) (default : PyVal) : Except PyExc PyVal :=
  match v with
  | .dict xs =>
    match xs.lookup k with
    | some w => .ok w
    | Option.none => .ok default
  | _ => .error .attributeError

/-- Python `d.get(k)` (default `None`). -/
def PyVal.get (v : PyVal) (k : String) : Except PyExc PyVal :=
  v.getD k .none

/-- Whitespace stripping of both ends (Python `.strip()` and the stripping
that `int()`/`float()` perform), structurally on the character list. -/
def charsTrim (cs : List Char) : List Char :=
  ((cs.dropWhile Char.isWhitespace).reverse.dropWhile Char.isWhitespace).reverse

/-- Python `.strip()`. -/
def pyStrip (s : String) : String :=
  String.mk (charsTrim s.toList)

/-- Numeric value of a digit list. -/
def digitsToNat (ds : List Char) : Nat :=
  ds.foldl (fun a c => a * 10 + (c.toNat - 48)) 0

/-- A nonempty all-digit character list read as a natural number (the core
of Python `int`). -/
def charsToNat (cs : List Char) : Option Nat :=
  if cs ≠ [] ∧ cs.all Char.isDigit then some (digitsToNat cs) else Option.none

/-- Splitting on a separator character (every `.split` in the embedded code
has a one-character separator). -/
def splitChars (sep : Char) : List Char → List (List Char)
  | [] => [[]]
  | c :: cs =>
    let r := splitChars sep cs
    if c = sep then [] :: r
    else
      match r with
      | h :: t => (c :: h) :: t
      | [] => [[c]]

/-- Substring test (Python `in` on strings). -/
def charsContains (pat : List Char) : List Char → Bool
  | [] => pat.isEmpty
  | c :: cs => pat.isPrefixOf (c :: cs) || charsContains pat cs

/-- Replacement of every occurrence of a nonempty pattern (Python
`.replace`), with explicit fuel to keep the recursion structural; fuel equal
to the input length suffices because every step consumes at least one input
character. -/
def charsReplace (pat repl : List Char) : Nat → List Char → List Char
  | 0, cs => cs
  | _ + 1, [] => []
  | fuel + 1, c :: cs =>
    if pat.isPrefixOf (c :: cs) then
      repl ++ charsReplace pat repl fuel ((c :: cs).drop pat.length)
    else
      c :: charsReplace pat repl fuel cs

/-- Python `s.replace(pat, repl)` for a nonempty pattern. -/
def pyStrReplace (s pat repl : String) : String :=
  String.mk (charsReplace pat.toList repl.toList s.toList.length s.toList)

/-- Optional leading sign, as stripped by the `int()`/`float()` models. -/
def splitSign (cs : List Char) : Bool × List Char :=
  match cs with
  | '+' :: rest => (false, rest)
  | '-' :: rest => (true, rest)
  | _ => (false, cs)

/-- Python `k in v` for a string `k`: key membership for dictionaries,
substring test for strings, element membership for lists, `TypeError`
otherwise. -/
def pyIn (k : String) (v : PyVal) : Except PyExc Bool :=
  match v with
  | .dict xs => .ok ((xs.map Prod.fst).contains k)
  | .str s => .ok (charsContains k.toList s.toList)
  | .list xs => .ok (xs.any (fun x => x.eqStr k))
  | _ => .error .typeError

/-- Python `repr(v)` on a container element, needed only by `str` on lists
and dictionaries (which no claim exercises); escaping inside strings is not
modelled. -/
def pyRepr : PyVal → String
  | .str s => "'" ++ s ++ "'"
  | .int n => toString n
  | .float s => s
  | .bool b => if b then "True" else "False"
  | .none => "None"
  | .list xs => "[" ++ String.intercalate ", " (xs.attach.map (fun x => pyRepr x.1)) ++ "]"
  | .dict xs =>
    "\x7b" ++
      String.intercalate ", "
        (xs.attach.map (fun kv => "'" ++ kv.1.1 ++ "': " ++ pyRepr kv.1.2)) ++
      "\x7d"
decreasing_by
  · have := List.sizeOf_lt_of_mem x.2
    simp_all
    omega
  · obtain ⟨⟨k, w⟩, hm⟩ := kv
    have := List.sizeOf_lt_of_mem hm
    simp_all
    omega

/-- Python `str(v)` as used by `"...{}...".format(v)`. -/
def pyStr : PyVal → String
  | .str s => s
  | .int n => toString n
  | .float s => s
  | .bool b => if b then "True" else "False"
  | .none => "None"
  | .list xs => pyRepr (.list xs)
  | .dict xs => pyRepr (.dict xs)

/-- Python `int(s)` on a string: optional surrounding whitespace, optional
sign, a nonempty run of digits; `none` when `int` would raise `ValueError`. -/
def pyIntOfString (s : String) : Option Int :=
  let (neg, core) := splitSign (charsTrim s.toList)
  match charsToNat core with
  | some n => some (if neg then -(n : Int) else (n : Int))
  | Option.none => Option.none

/-- Whether Python `float(s)` accepts the string `s`: optional whitespace and
sign, then `inf`/`infinity`/`nan` or a decimal mantissa with optional
exponent. -/
def pyFloatAccepts (s : String) : Bool :=
  let (_, t) := splitSign (charsTrim s.toList)
  let lower := t.map Char.toLower
  if lower = "inf".toList ∨ lower = "infinity".toList ∨ lower = "nan".toList then true
  else
    let mantOk (m : List Char) : Bool :=
      !m.isEmpty && (match splitChars '.' m with
      | [a] => !a.isEmpty && a.all Char.isDigit
      | [a, b] =>
        (!a.isEmpty || !b.isEmpty) && a.all Char.isDigit && b.all Char.isDigit
      | _ => false)
    let expOk (e : List Char) : Bool :=
      let (_, ec) := splitSign e
      !ec.isEmpty && ec.all Char.isDigit
    match splitChars 'e' lower with
    | [m] => mantOk m
    | [m, e] => mantOk m && expOk e
    | _ => false

/-- Python iteration `for x in v`: the elements of a list, the characters of a
string (each as a one-character string), the keys of a dictionary;
`TypeError` otherwise. -/
def pyIterate (v : PyVal) : Except PyExc (List PyVal) :=
  match v with
  | .list xs => .ok xs
  | .str s => .ok (s.toList.map (fun c => .str (String.mk [c])))
  | .dict xs => .ok (xs.map (fun kv => .str kv.1))
  | _ => .error .typeError

/-- Python `v[0]` as used on a claim's reference list: first element of a
list (an out-of-range index or an integer key on a string-keyed dictionary
is modelled as `keyError`; no handler in the embedded code distinguishes the
two), first character of a string; `TypeError` otherwise. -/
def pyIndexZero (v : PyVal) : Except PyExc PyVal :=
  match v with
  | .list (x :: _) => .ok x
  | .list [] => .error .keyError
  | .str s =>
    match s.toList with
    | c :: _ => .ok (.str (String.mk [c]))
    | [] => .error .keyError
  | .dict _ => .error .keyError
  | _ => .error .typeError

/-- Collaborator responses consumed by the embedded code. Each field models
one external service exactly at its call boundary, so the embedded functions
are pure functions of their inputs and of these responses. -/
structure Env where
  /-- `WDItemEngine(wd_item_id=qid).wd_json_representation`, or `None` when
  `get_item_json` caught an exception (`wd_int_utils.get_item_json`). -/
  itemJson : String → Option PyVal
  /-- The flattened rows returned by `get_property_details_by_pid_list([pid])`
  for a single property id (the property-details SPARQL query). -/
  propertyRows : String → List (List (String × PyVal))
  /-- The image URL extracted from a successful Wikimedia Commons
  `imageinfo` API response for the (underscored) title, or `none` when the
  request fails or the response lacks the url (the caught branch). -/
  fetchImageUrl : String → Option String
  /-- Truthiness of `validators.url(val)`. -/
  urlCheck : PyVal → Bool
  /-- `WDItemEngine.get_wd_search_results(string, language=LANG)`. -/
  searchResults : String → List String
  /-- Configured language (`APP.config['WIKIDATA_LANG']`, default `"en"`). -/
  lang : String
  /-- Configured fallback language (`APP.config['WIKIDATA_FB_LANG']`). -/
  fbLang : String

/-- Base URL of Wikimedia Commons. The current `const.py` revision that
defines `WIKIMEDIA_COMMONS_BASE_URL` is not in the source snapshot; the value
is taken from the identical hard-coded URL in `utils.py`
`get_wikimedia_image_url_from_title`. -/
def WIKIMEDIA_COMMONS_BASE_URL : String := "https://commons.wikimedia.org"

/-- Base URL of Wikidata entities (`const.py`, `format_item_url`). -/
def WIKIDATA_ENTITY_BASE_URL : String := "http://www.wikidata.org/entity"

/-- The first value from the property-details rows: `get_property` in
`utils/__init__.py` (`prop_response[0] if prop_response else None`). -/
def get_property (env : Env) (pid : String) : Option (List (String × PyVal)) :=
  (env.propertyRows pid).head?

/-- Digits-prefix splitter used by the `strptime` model: take up to `max`
leading decimal digits. -/
def takeDigits : Nat → List Char → List Char × List Char
  | 0, cs => ([], cs)
  | _ + 1, [] => ([], [])
  | n + 1, c :: cs =>
    if c.isDigit then
      let (ds, rest) := takeDigits n cs
      (c :: ds, rest)
    else ([], c :: cs)

/-- Gregorian leap-year rule, as used by Python `datetime`. -/
def isLeapYear (y : Nat) : Bool :=
  y % 4 == 0 && (y % 100 != 0 || y % 400 == 0)

/-- Days in a month of the proleptic Gregorian calendar. -/
def daysInMonth (y m : Nat) : Nat :=
  if m = 2 then (if isLeapYear y then 29 else 28)
  else if m = 4 ∨ m = 6 ∨ m = 9 ∨ m = 11 then 30
  else 31

/-- Day of week (0 = Sunday) of a proleptic Gregorian date, by Sakamoto's
method, matching Python `datetime.weekday` up to naming. -/
def dayOfWeek (y m d : Nat) : Nat :=
  let t := [0, 3, 2, 5, 0, 3, 5, 1, 4, 6, 2, 4]
  let y := if m < 3 then y - 1 else y
  (y + y / 4 - y / 100 + y / 400 + t.getD (m - 1) 0 + d) % 7

/-- Weekday name as produced by `strftime("%A")` (index 0 = Sunday). -/
def weekdayName (w : Nat) : String :=
  ["Sunday", "Monday", "Tuesday", "Wednesday",
   "Thursday", "Friday", "Saturday"].getD w ""

/-- Month name as produced by `strftime("%B")`. -/
def monthName (m : Nat) : String :=
  ["January", "February", "March", "April", "May", "June", "July",
   "August", "September", "October", "November", "December"].getD (m - 1) ""

/-- Model of `datetime.strptime(time, "+%Y-%m-%dT%H:%M:%SZ")`: a leading
plus sign, exactly four year digits, then month, day, hour, minute, second
with the separators of the format, nothing trailing; field values are
validated as `strptime`/`datetime` do (month 1-12, day fitting the month,
year 1-9999, hour 0-23, minute and second 0-59 — values `strptime` itself
admits but `datetime` rejects, such as second 61, equally produce
`ValueError`). Returns the date triple on success. -/
def parseWikidataTime (s : String) : Option (Nat × Nat × Nat) :=
  match s.toList with
  | '+' :: rest =>
    let (yd, r1) := takeDigits 4 rest
    let y := digitsToNat yd
    match r1 with
    | '-' :: r2 =>
      let (md, r3) := takeDigits 2 r2
      let m := digitsToNat md
      match r3 with
      | '-' :: r4 =>
        let (dd, r5) := takeDigits 2 r4
        let d := digitsToNat dd
        match r5 with
        | 'T' :: r6 =>
          let (hd, r7) := takeDigits 2 r6
          let h := digitsToNat hd
          match r7 with
          | ':' :: r8 =>
            let (mid, r9) := takeDigits 2 r8
            let mi := digitsToNat mid
            match r9 with
            | ':' :: r10 =>
              let (sd, r11) := takeDigits 2 r10
              let sec := digitsToNat sd
              if r11 = ['Z'] ∧ yd.length = 4 ∧ ¬ md.isEmpty ∧ ¬ dd.isEmpty ∧
                  ¬ hd.isEmpty ∧ ¬ mid.isEmpty ∧ ¬ sd.isEmpty ∧
                  1 ≤ y ∧ y ≤ 9999 ∧ 1 ≤ m ∧ m ≤ 12 ∧
                  1 ≤ d ∧ d ≤ daysInMonth y m ∧
                  h ≤ 23 ∧ mi ≤ 59 ∧ sec ≤ 59 then
                some (y, m, d)
              else Option.none
            | _ => Option.none
          | _ => Option.none
        | _ => Option.none
      | _ => Option.none
    | _ => Option.none
  | _ => Option.none

/-- The output format `strftime("%A, %B %-d, %Y")`. -/
def strftimeLongDate (y m d : Nat) : String :=
  weekdayName (dayOfWeek y m d) ++ ", " ++ monthName m ++ " " ++
    toString d ++ ", " ++ toString y

/-- `time_formatter` (`utils/__init__.py` and identically `utils.py`):
convert Wikidata's time string to a human-readable date, returning the input
unchanged when `strptime` raises `ValueError` (unparseable string) or
`TypeError` (non-string input) — both are caught. -/
def time_formatter (time : PyVal) : PyVal :=
  match time with
  | .str s =>
    match parseWikidataTime s with
    | some (y, m, d) => .str (strftimeLongDate y m d)
    | Option.none => time
  | _ => time

/-- `get_wikimedia_image_url_from_title` (`utils/__init__.py`): underscore
the title and ask the Commons API for the file's URL, falling back to the
Commons file page on any caught failure; a non-string title raises
`AttributeError` at `title.replace`. -/
def get_wikimedia_image_url_from_title (env : Env) (title : PyVal) :
    Except PyExc PyVal := do
  let t ← match title with
    | .str s => Except.ok (pyStrReplace s " " "_")
    | _ => Except.error PyExc.attributeError
  match env.fetchImageUrl t with
  | some u => Except.ok (.str u)
  | Option.none => Except.ok (.str (WIKIMEDIA_COMMONS_BASE_URL ++ "/wiki/File:" ++ t))

/-- `format_url_from_property` (`utils/__init__.py`): strip the value, look
the property up, and substitute into its `formatter_url` when the property
was found and has one (`if prop and 'formatter_url' in prop`), else `None`.
`.strip()` on a non-string value raises `AttributeError`, as does
`.replace` when the stored formatter url is not a string. -/
def format_url_from_property (env : Env) (pid : String) (value : PyVal) :
    Except PyExc PyVal := do
  let v ← match value with
    | .str s => Except.ok (pyStrip s)
    | _ => Except.error PyExc.attributeError
  match get_property env pid with
  | some prop =>
    match prop.lookup "formatter_url" with
    | some (.str fmt) => Except.ok (.str (pyStrReplace fmt "$1" v))
    | some _ => Except.error PyExc.attributeError
    | Option.none => Except.ok PyVal.none
  | Option.none => Except.ok PyVal.none

/-- `format_url_from_property` (`utils.py`, the older revision): identical
except that the guard is only `if 'formatter_url' in prop`, so a property
that was not found raises `TypeError` (`in` on `None`). -/
def format_url_from_property_legacy (env : Env) (pid : String) (value : PyVal) :
    Except PyExc PyVal := do
  let v ← match value with
    | .str s => Except.ok (pyStrip s)
    | _ => Except.error PyExc.attributeError
  match get_property env pid with
  | some prop =>
    match prop.lookup "formatter_url" with
    | some (.str fmt) => Except.ok (.str (pyStrReplace fmt "$1" v))
    | some _ => Except.error PyExc.attributeError
    | Option.none => Except.ok PyVal.none
  | Option.none => Except.error PyExc.typeError

/-- The property-label cache threaded through the older `utils.py` parsing
code: an insertion-ordered mapping from property id to label value. -/
abbrev LabelCache := List (String × PyVal)

/-- `pid_label` (`utils.py`): look a property id up in the cache; on a miss,
fetch the property, fall back to `"property {pid}"`, and append the result
to the cache (the mutation `cached_values[pid] = property_label`). -/
def pid_label (env : Env) (pid : String) (cached_values : LabelCache) :
    PyVal × LabelCache :=
  if (cached_values.map Prod.fst).contains pid then
    (match cached_values.lookup pid with
     | some v => v
     | Option.none => PyVal.none,
     cached_values)
  else
    let default_label := PyVal.str ("property " ++ pid)
    let property_label :=
      match get_property env pid with
      | some prop =>
        match prop.lookup "propertyLabel" with
        | some v => v
        | Option.none => default_label
      | Option.none => default_label
    (property_label, cached_values ++ [(pid, property_label)])

/-- Truncation of Python `int(float(s))` computed from the float's source
string: digits shifted by the exponent, truncated toward zero; `none` for
`inf`/`nan` (where `int()` raises). Stored floats can only reach `int()`
through a quantity amount that is itself a JSON float. -/
def pyFloatTruncInt (s : String) : Option Int :=
  let (neg, t) := splitSign (charsTrim s.toList)
  let lower := t.map Char.toLower
  if lower = "inf".toList ∨ lower = "infinity".toList ∨ lower = "nan".toList then
    Option.none
  else
    let (mant, expo) :=
      match splitChars 'e' lower with
      | [m] => (m, (0 : Int))
      | [m, e] =>
        let (eneg, ec) := splitSign e
        (m, if eneg then -(digitsToNat ec : Int) else (digitsToNat ec : Int))
      | _ => ([], 0)
    let (a, b) :=
      match splitChars '.' mant with
      | [a] => (a, [])
      | [a, b] => (a, b)
      | _ => ([], [])
    let digits := digitsToNat (a ++ b)
    let scale : Int := (b.length : Int) - expo
    let magnitude : Nat :=
      if scale ≤ 0 then digits * 10 ^ scale.natAbs else digits / 10 ^ scale.toNat
    some (if neg then -(magnitude : Int) else (magnitude : Int))

/-- The inner `try: val = int(num) except ValueError: val = float(num)` of
`parse_snak`: an integer passes through, a string is parsed as `int` and,
failing that, as `float` (an unparseable string escapes as `ValueError`
from the inner `float` call), a bool coerces, a stored float truncates, and
`None`/containers raise `TypeError`. -/
def pyIntOrFloat (num : PyVal) : Except PyExc PyVal :=
  match num with
  | .int n => .ok (.int n)
  | .bool b => .ok (.int (if b then 1 else 0))
  | .str s =>
    match pyIntOfString s with
    | some n => .ok (.int n)
    | Option.none =>
      if pyFloatAccepts s then .ok (.float s) else .error .valueError
  | .float s =>
    match pyFloatTruncInt s with
    | some n => .ok (.int n)
    | Option.none => .error .valueError
  | _ => .error .typeError

/-- The short-circuit condition `data_type == 'quantity' and 'amount' in
data_value` of `parse_snak`: the membership test (which may raise) only runs
when the type tag is `quantity`. -/
def quantityHasAmount (data_type data_value : PyVal) : Except PyExc Bool :=
  if data_type.eqStr "quantity" then pyIn "amount" data_value
  else pure false

/-- The record `{'value': val, 'parse_type': parse_type, 'type': data_type}`
returned by `parse_snak`. -/
structure SnakRecord where
  value : PyVal
  parse_type : PyVal
  type : PyVal
deriving Repr

/-- The body of the `try` block of `parse_snak` in `utils/__init__.py`
(lines 415-462): return `None` for a `novalue` snak or one without a
`datavalue`, otherwise dispatch — first on the property id (`P18`/`P154`
become images), then on the snak's `datatype` (`external-id`), then on the
data value's `type` tag (`string`, `wikibase-entityid`, `time`, `quantity`
with an `amount`, `monolingualtext`), with a catch-all unparsed message. -/
def parse_snak_body (env : Env) (pid : String) (snak : PyVal) :
    Except PyExc (Option SnakRecord) := do
  let snaktype ← snak.getItem "snaktype"
  if snaktype.eqStr "novalue" then
    return Option.none
  else
    let hasDatavalue ← pyIn "datavalue" snak
    if !hasDatavalue then
      return Option.none
    else
      let parse_type ← snak.get "datatype"
      let datavalue ← snak.getItem "datavalue"
      let data_type ← datavalue.get "type"
      let data_value ← datavalue.get "value"
      if ["P18", "P154"].contains pid then
        let val ← get_wikimedia_image_url_from_title env data_value
        return some ⟨val, .str "image", data_type⟩
      else if parse_type.eqStr "external-id" then
        let url ← format_url_from_property env pid data_value
        return some ⟨.dict [("url", url), ("label", data_value)], parse_type, data_type⟩
      else if data_type.eqStr "string" then
        let pt := if env.urlCheck data_value then PyVal.str "url" else parse_type
        return some ⟨data_value, pt, data_type⟩
      else if data_type.eqStr "wikibase-entityid" then
        let pt ← data_value.get "entity-type"
        if pt.eqStr "property" then
          let nid ← data_value.get "numeric-id"
          return some ⟨.str ("P" ++ pyStr nid), pt, data_type⟩
        else
          let idv ← data_value.get "id"
          return some ⟨idv, pt, data_type⟩
      else if data_type.eqStr "time" then
        let t ← data_value.get "time"
        return some ⟨time_formatter t, .str "time", data_type⟩
      else
        let isQuantityWithAmount ← quantityHasAmount data_type data_value
        if isQuantityWithAmount then
          let num ← data_value.get "amount"
          let val ← pyIntOrFloat num
          return some ⟨val, parse_type, data_type⟩
        else if data_type.eqStr "monolingualtext" then
          let text ← data_value.getD "text" (.str "")
          let lang ← data_value.getD "language" (.str "unknown")
          return some ⟨.str ("\"" ++ pyStr text ++ "\" (language: " ++ pyStr lang ++ ")"),
            parse_type, data_type⟩
        else
          return some ⟨.str ("Unable To Parse Value " ++ pyStr data_type),
            parse_type, data_type⟩

/-- `parse_snak` of `utils/__init__.py`: the `try` body with
`except KeyError: … return None`; every other exception propagates to the
caller. -/
def parse_snak (env : Env) (pid : String) (snak : PyVal) :
    Except PyExc (Option SnakRecord) :=
  match parse_snak_body env pid snak with
  | .ok r => .ok r
  | .error .keyError => .ok Option.none
  | .error e => .error e

/-- The body of the `try` block of the older `parse_snak` in `utils.py`
(lines 293-338). It differs from the current one in the
`wikibase-entityid`/`property` branch (the value is a `{'pid', 'label'}`
dictionary produced through the mutable label cache `pid_label`) and in
using the older `format_url_from_property`. The cache is threaded
explicitly; every branch other than the property one returns it unchanged. -/
def parse_snak_legacy_body (env : Env) (pid : String) (snak : PyVal)
    (cached_property_labels : LabelCache) :
    Except PyExc (Option SnakRecord × LabelCache) := do
  let snaktype ← snak.getItem "snaktype"
  if snaktype.eqStr "novalue" then
    return (Option.none, cached_property_labels)
  else
    let hasDatavalue ← pyIn "datavalue" snak
    if !hasDatavalue then
      return (Option.none, cached_property_labels)
    else
      let parse_type ← snak.get "datatype"
      let datavalue ← snak.getItem "datavalue"
      let data_type ← datavalue.get "type"
      let data_value ← datavalue.get "value"
      if ["P18", "P154"].contains pid then
        let val ← get_wikimedia_image_url_from_title env data_value
        return (some ⟨val, .str "image", data_type⟩, cached_property_labels)
      else if parse_type.eqStr "external-id" then
        let url ← format_url_from_property_legacy env pid data_value
        return (some ⟨.dict [("url", url), ("label", data_value)], parse_type, data_type⟩,
          cached_property_labels)
      else if data_type.eqStr "string" then
        let pt := if env.urlCheck data_value then PyVal.str "url" else parse_type
        return (some ⟨data_value, pt, data_type⟩, cached_property_labels)
      else if data_type.eqStr "wikibase-entityid" then
        let pt ← data_value.get "entity-type"
        if pt.eqStr "property" then
          let nid ← data_value.get "numeric-id"
          let pid2 := "P" ++ pyStr nid
          let (label, cache2) := pid_label env pid2 cached_property_labels
          return (some ⟨.dict [("pid", .str pid2), ("label", label)], pt, data_type⟩, cache2)
        else
          let idv ← data_value.get "id"
          return (some ⟨idv, pt, data_type⟩, cached_property_labels)
      else if data_type.eqStr "time" then
        let t ← data_value.get "time"
        return (some ⟨time_formatter t, .str "time", data_type⟩, cached_property_labels)
      else
        let isQuantityWithAmount ← quantityHasAmount data_type data_value
        if isQuantityWithAmount then
          let num ← data_value.get "amount"
          let val ← pyIntOrFloat num
          return (some ⟨val, parse_type, data_type⟩, cached_property_labels)
        else if data_type.eqStr "monolingualtext" then
          let text ← data_value.getD "text" (.str "")
          let lang ← data_value.getD "language" (.str "unknown")
          return (some ⟨.str ("\"" ++ pyStr text ++ "\" (language: " ++ pyStr lang ++ ")"),
            parse_type, data_type⟩, cached_property_labels)
        else
          return (some ⟨.str ("Unable To Parse Value " ++ pyStr data_type),
            parse_type, data_type⟩, cached_property_labels)

/-- `parse_snak` of `utils.py`: the `try` body with
`except (KeyError, Exception): … return None` — a catch-all, so no
exception ever propagates. The only cache update in the body (in the
`property` branch) is immediately followed by that branch's `return`, so an
exception can never discard an update: returning the unchanged cache on an
exception is exact. -/
def parse_snak_legacy (env : Env) (pid : String) (snak : PyVal)
    (cached_property_labels : LabelCache) : Option SnakRecord × LabelCache :=
  match parse_snak_legacy_body env pid snak cached_property_labels with
  | .ok rc => rc
  | .error _ => (Option.none, cached_property_labels)

/-- One group of parsed qualifier/reference snaks,
`{'pid': pid, 'values': values}` (`_parse_snak_set`). -/
structure ParsedSnakGroup where
  pid : String
  values : List SnakRecord
deriving Repr

/-- A parsed main-snak value after `_add_claim_data_item_context` attached
`references` and `qualifiers` to the `parse_snak` record. -/
structure ParsedValue where
  value : PyVal
  parse_type : PyVal
  type : PyVal
  references : List ParsedSnakGroup
  qualifiers : List ParsedSnakGroup
deriving Repr

/-- One parsed claim group, `{'pid': pid, 'values': value_list}`. -/
structure ParsedClaim where
  pid : String
  values : List ParsedValue
deriving Repr

/-- The three claim-derived lists added to the item context. -/
structure ClaimData where
  external_links : List ParsedClaim
  claims : List ParsedClaim
  categories : List ParsedValue
deriving Repr

/-- `get_lang` (`utils/__init__.py`): the configured language's entry, else
(`or`) the fallback language's entry with the given default; an empty or
`None` dictionary short-circuits to the default. -/
def get_lang (env : Env) (d : PyVal) (default : PyVal) : Except PyExc PyVal := do
  if ¬ d.truthy then
    return default
  else
    let a ← d.get env.lang
    if a.truthy then
      return a
    else
      d.getD env.fbLang default

/-- `parse_wd_response_by_key` (`utils/__init__.py`): pick the language entry
of `item[key]` and flatten it — a list becomes the list of its entries'
`value` fields, a dictionary its `value` field (or itself), anything else
passes through; a missing or falsy `item[key]` yields the default. -/
def parse_wd_response_by_key (env : Env) (item : PyVal) (key : String)
    (default : PyVal) : Except PyExc PyVal := do
  let value_dict ← item.get key
  if value_dict.truthy then
    let values ← get_lang env value_dict default
    match values with
    | .list xs => do
      let mapped ← xs.mapM (fun x => x.get "value")
      return .list mapped
    | .dict ys =>
      match ys.lookup "value" with
      | some v => pure v
      | Option.none => pure (.dict ys)
    | v => pure v
  else
    pure default

/-- `_parse_snak_set` (`utils/__init__.py`): parse every snak of every
property of a qualifier/reference set, keeping only snaks that parsed and
only properties with at least one parsed value. -/
def _parse_snak_set (env : Env) (snak_set : PyVal) :
    Except PyExc (List ParsedSnakGroup) := do
  if snak_set.truthy then
    match snak_set with
    | .dict entries =>
      entries.foldlM (fun acc kv => do
        let snaks ← pyIterate kv.2
        let values ← snaks.foldlM (fun vs snak => do
          match ← parse_snak env kv.1 snak with
          | some v => pure (vs ++ [v])
          | Option.none => pure vs) []
        if values.isEmpty then pure acc else pure (acc ++ [⟨kv.1, values⟩])) []
    | _ => Except.error PyExc.attributeError
  else
    pure []

/-- `_parse_qualifiers`: the snak set under the claim's `qualifiers` key
(the key literal is taken from the identical older `utils.py` code; the
`WDEntityField` constants of the current `const.py` are not in the source
snapshot). -/
def _parse_qualifiers (env : Env) (json_details : PyVal) :
    Except PyExc (List ParsedSnakGroup) := do
  let qualifier_set ← json_details.get "qualifiers"
  _parse_snak_set env qualifier_set

/-- `_parse_references`: the snak set of the first reference block, `[]`
when the claim has no references. -/
def _parse_references (env : Env) (json_details : PyVal) :
    Except PyExc (List ParsedSnakGroup) := do
  let reference_list ← json_details.get "references"
  if reference_list.truthy then
    let r0 ← pyIndexZero reference_list
    let reference_set ← r0.get "snaks"
    _parse_snak_set env reference_set
  else
    pure []

/-- `get_claims_from_json`: `item_json.get('claims', {})`. -/
def get_claims_from_json (item_json : PyVal) : Except PyExc PyVal :=
  item_json.getD "claims" (.dict [])

/-- `_entity_id_to_int`: `int(entity[1:])`, raising `ValueError` on a
malformed id. -/
def _entity_id_to_int (entity : String) : Except PyExc Int :=
  match pyIntOfString (entity.drop 1) with
  | some n => .ok n
  | Option.none => .error .valueError

/-- Stable insertion into a sorted list: the new element goes before the
first element it compares less-or-equal to, so elements with equal keys
keep their original order. -/
def stableInsert {a : Type} (le : a → a → Bool) (x : a) : List a → List a
  | [] => [x]
  | y :: ys => if le x y then x :: y :: ys else y :: stableInsert le x ys

/-- Model of Python's stable `sorted`: a structural stable insertion sort
(extensionally equal to every stable ascending sort, hence to Python's). -/
def stableSort {a : Type} (le : a → a → Bool) (l : List a) : List a :=
  l.foldr (stableInsert le) []

/-- The body of the inner `for json_details in claim_dict` loop of
`_add_claim_data_item_context`, for one property: accumulates the parsed
`value_list`, the `add_to_ex_list` flag (set when a value's `parse_type` is
`external-id`), and the values this property contributes to `categories`
(appended when the value is not an external id — the `elif` — and the
property is `P31` or `P279`). -/
def claimValueStep (env : Env) (pid : String)
    (acc : List ParsedValue × Bool × List ParsedValue) (json_details : PyVal) :
    Except PyExc (List ParsedValue × Bool × List ParsedValue) := do
  let ms ← json_details.get "mainsnak"
  match ← parse_snak env pid ms with
  | Option.none => pure acc
  | some v => do
    let refs ← _parse_references env json_details
    let quals ← _parse_qualifiers env json_details
    let pv : ParsedValue := ⟨v.value, v.parse_type, v.type, refs, quals⟩
    let add2 := acc.2.1 || v.parse_type.eqStr "external-id"
    let cats2 :=
      if ¬ v.parse_type.eqStr "external-id" ∧ ["P31", "P279"].contains pid then
        acc.2.2 ++ [pv]
      else acc.2.2
    pure (acc.1 ++ [pv], add2, cats2)

def processClaimGroup (env : Env) (pid : String) (claim_dict : PyVal) :
    Except PyExc (List ParsedValue × Bool × List ParsedValue) := do
  let json_list ← pyIterate claim_dict
  json_list.foldlM (claimValueStep env pid) ([], false, [])

/-- The body of the outer `for pid, claim_dict in sorted_claims` loop of
`_add_claim_data_item_context`: parse one claim group and route it to the
external-links list when its flag is set, to the claims list otherwise,
collecting its category values. -/
def claimGroupStep (env : Env)
    (acc : List ParsedClaim × List ParsedClaim × List ParsedValue)
    (kv : String × PyVal) :
    Except PyExc (List ParsedClaim × List ParsedClaim × List ParsedValue) := do
  let t ← processClaimGroup env kv.1 kv.2
  let parsed_claim : ParsedClaim := ⟨kv.1, t.1⟩
  if t.2.1 then
    pure (acc.1, acc.2.1 ++ [parsed_claim], acc.2.2 ++ t.2.2)
  else
    pure (acc.1 ++ [parsed_claim], acc.2.1, acc.2.2 ++ t.2.2)

/-- `_add_claim_data_item_context` (`utils/__init__.py`): sort the claim
groups by the numeric part of their property id (Python's stable sort),
parse each group, and route every group to `external_links` when its flag
was set and to `claims` otherwise, with `categories` collected across
groups in order. -/
def _add_claim_data_item_context (env : Env) (item : PyVal) :
    Except PyExc ClaimData := do
  let claims ← get_claims_from_json item
  let entries ← match claims with
    | .dict es => Except.ok es
    | _ => Except.error PyExc.attributeError
  let keyed ← entries.mapM (fun kv => do
    let n ← _entity_id_to_int kv.1
    pure (n, kv))
  let sorted_claims := (stableSort (fun a b => a.1 ≤ b.1) keyed).map Prod.snd
  let res ← sorted_claims.foldlM (claimGroupStep env) ([], [], [])
  pure ⟨res.2.1, res.1, res.2.2⟩

/-- `format_item_url` (`utils/__init__.py`). -/
def format_item_url (qid : String) : String :=
  WIKIDATA_ENTITY_BASE_URL ++ "/" ++ qid

/-- The context dictionary built by `item_detail_parse`; the claim-derived
entries are present exactly when claims were requested. -/
structure ItemContext where
  aliases : PyVal
  description : PyVal
  label : PyVal
  qid : String
  url : String
  claimData : Option ClaimData
deriving Repr

/-- The result of `item_detail_parse`: the Python `False`, or the context
dictionary. -/
inductive ItemResult where
  | noItem
  | item (ctx : ItemContext)
deriving Repr

/-- `item_detail_parse` (`utils/__init__.py`): `False` when the fetched
entity JSON is `None` (the fetch failed) or falsy, otherwise the flattened
context, with claims/external links/categories added when requested. -/
def item_detail_parse (env : Env) (qid : String) (with_claims : Bool) :
    Except PyExc ItemResult := do
  let item := match env.itemJson qid with
    | some v => v
    | Option.none => PyVal.none
  if ¬ item.truthy then
    return ItemResult.noItem
  else
    let label ← parse_wd_response_by_key env item "labels" (.str ("Item " ++ qid))
    let aliases ← parse_wd_response_by_key env item "aliases" (.list [])
    let description ← parse_wd_response_by_key env item "descriptions" (.str "")
    let claimData ←
      if with_claims then do
        let cd ← _add_claim_data_item_context env item
        pure (some cd)
      else
        pure Option.none
    return ItemResult.item ⟨aliases, description, label, qid, format_item_url qid, claimData⟩

/-- The body of the `for qid in result_qid_list[:10]` loop of
`search_result_list`: parse one hit without claims and append it to the
output when truthy (`if item: output.append(item)`). -/
def searchStep (env : Env) (output : List ItemContext) (qid : String) :
    Except PyExc (List ItemContext) := do
  let item ← item_detail_parse env qid false
  match item with
  | .item ctx => pure (output ++ [ctx])
  | .noItem => pure output

/-- `search_result_list` (`controllers/search.py`): fetch the hit ids for the
search string, parse the first ten (`result_qid_list[:10]`) without claims,
and keep the truthy results in order. -/
def search_result_list (env : Env) (string : String) :
    Except PyExc (List ItemContext) := do
  let result_qid_list := env.searchResults string
  (result_qid_list.take 10).foldlM (searchStep env) []

/-- `_format_wikidata_bindings` (`utils/wd_int_utils.py`, and identically
`format_wikidata_bindings` in `utils.py`):
`[{k: v.get('value') for k, v in res.items()} for res in bindings]`. -/
def _format_wikidata_bindings (bindings : List PyVal) :
    Except PyExc (List (List (String × PyVal))) :=
  bindings.mapM (fun res =>
    match res with
    | .dict kvs =>
      kvs.mapM (fun kv => do
        let v ← kv.2.get "value"
        pure (kv.1, v))
    | _ => Except.error PyExc.attributeError)

/-- `process_query_string` (`utils/wd_int_utils.py`): execute the query at
the SPARQL endpoint (the collaborator `sparqlResult`), extract
`result['results'].get('bindings')`, and flatten. -/
def process_query_string (sparqlResult : String → PyVal) (query : String) :
    Except PyExc (List (List (String × PyVal))) := do
  let result := sparqlResult query
  let results ← result.getItem "results"
  let bindings ← results.get "bindings"
  let blist ← pyIterate bindings
  _format_wikidata_bindings blist

/-- The two WikidataIntegrator data-type classes registered in
`STRING_TO_WD_DATATYPE` (`controllers/api.py`). -/
inductive WDDataType where
  | wikibaseItem
  | wdString
deriving Repr, DecidableEq

/-- The dictionary lookup `STRING_TO_WD_DATATYPE[data_type_string]`. -/
def STRING_TO_WD_DATATYPE (v : PyVal) : Option WDDataType :=
  if v.eqStr "WikibaseItem" then some .wikibaseItem
  else if v.eqStr "String" then some .wdString
  else Option.none

/-- A constructed WikidataIntegrator statement object: its class, value,
property number, role flags, and attached qualifier and reference objects
(references doubly nested, as the client expects). -/
inductive WDObject where
  | mk (dataType : WDDataType) (value : PyVal) (propNr : PyVal)
       (isQualifier : Bool) (isReference : Bool)
       (qualifiers : List WDObject) (references : List (List WDObject))

/-- Class of a statement object. -/
def WDObject.dataType : WDObject → WDDataType
  | .mk dt _ _ _ _ _ _ => dt

/-- Value of a statement object. -/
def WDObject.value : WDObject → PyVal
  | .mk _ v _ _ _ _ _ => v

/-- Property number of a statement object. -/
def WDObject.propNr : WDObject → PyVal
  | .mk _ _ p _ _ _ _ => p

/-- Qualifier flag of a statement object. -/
def WDObject.isQualifier : WDObject → Bool
  | .mk _ _ _ q _ _ _ => q

/-- Reference flag of a statement object. -/
def WDObject.isReference : WDObject → Bool
  | .mk _ _ _ _ r _ _ => r

/-- Qualifier objects attached to a statement object. -/
def WDObject.qualifiers : WDObject → List WDObject
  | .mk _ _ _ _ _ qs _ => qs

/-- Reference objects attached to a statement object. -/
def WDObject.references : WDObject → List (List WDObject)
  | .mk _ _ _ _ _ _ rs => rs

/-- `wd_datatype` (`controllers/api.py`): instantiate the class looked up by
name (`KeyError` for an unsupported name; the `assert` always passes for a
found class). -/
def wd_datatype (data_type_string : PyVal) (value propNr : PyVal)
    (isQualifier isReference : Bool)
    (qualifiers : List WDObject) (references : List (List WDObject)) :
    Except PyExc WDObject :=
  match STRING_TO_WD_DATATYPE data_type_string with
  | some dt => .ok (.mk dt value propNr isQualifier isReference qualifiers references)
  | Option.none => .error .keyError

/-- `build_statement` (`controllers/api.py`): one qualifier object per entry
of the qualifier list (flagged `is_qualifier`), the reference objects in a
deliberately doubly nested list (flagged `is_reference`), and the statement
itself carrying the property and value. -/
def build_statement (prop value data_type qualifier_data reference_data : PyVal) :
    Except PyExc WDObject := do
  let qlist ← pyIterate qualifier_data
  let qualifiers ← qlist.mapM (fun qualifier => do
    let t ← qualifier.get "type"
    let v ← qualifier.get "value"
    let p ← qualifier.get "pid"
    wd_datatype t v p true false [] [])
  let rlist ← pyIterate reference_data
  let refInner ← rlist.mapM (fun reference => do
    let t ← reference.get "type"
    let v ← reference.get "value"
    let p ← reference.get "pid"
    wd_datatype t v p false true [] [])
  let references := [refInner]
  wd_datatype data_type value prop false false qualifiers references

/-- Configuration consumed by the write controller (`APP.config` values; the
`ConfKey` names for them belong to a `const.py` revision not in the source
snapshot, the values are environment-driven strings). -/
structure ApiEnv where
  mediawikiApiUrl : String
  wikidataUserName : String
  wikidataPassword : String

/-- The credentials object built by `build_login` (`controllers/api.py`):
system-wide user/password against the configured MediaWiki API. -/
structure WDLoginModel where
  mediawiki_api_url : String
  user : String
  pwd : String
deriving Repr, DecidableEq

/-- `build_login`. -/
def build_login (env : ApiEnv) : WDLoginModel :=
  ⟨env.mediawikiApiUrl, env.wikidataUserName, env.wikidataPassword⟩

/-- What `write_claims_to_item` hands to the knowledge-base client: the item
id and statement data given to `WDItemEngine`, and the login passed to
`item.write` — the client's authenticated write path. -/
structure WriteRequest where
  qid : String
  mediawiki_api_url : String
  data : List WDObject
  login : WDLoginModel

/-- `write_claims_to_item` (`controllers/api.py`): build one statement per
posted claim element and submit them with the built login. -/
def write_claims_to_item (env : ApiEnv) (qid : String) (json_data : PyVal) :
    Except PyExc WriteRequest := do
  let claims ← pyIterate json_data
  let data ← claims.mapM (fun claim_data => do
    let pid ← claim_data.get "pid"
    let v ← claim_data.get "value"
    let t ← claim_data.get "type"
    let q ← claim_data.get "qualifiers"
    let r ← claim_data.get "references"
    build_statement pid v t q r)
  let wd_login := build_login env
  pure ⟨qid, env.mediawikiApiUrl, data, wd_login⟩

/-- The Python modules of the repository (both revisions; `routes`, `sparql`
and `lists` are package/module files not in the source snapshot — their
lists of imports are modelled from the spec's component list: the route
handlers import the controllers, the query-template and list modules import
nothing of this repository). -/
inductive PyModule where
  | wikidp
  | config
  | constants
  | routes
  | routesApi
  | routesFilters
  | controllersApi
  | controllersSearch
  | utils
  | utilsWdInt
  | models
  | sparql
  | displayFunctions
  | lists
  | model
  | wikidata
deriving Repr, DecidableEq

/-- The repository-internal import lists, read off the `import`/`from`
statements of each source file.  Modelled from the spec: the missing
`routes/__init__.py` (the HTTP route handler package) imports its route
modules, and the missing `sparql` and `lists` modules import no repository
module. -/
def PyModule.importsOf : PyModule → List PyModule
  | .wikidp => [.config, .routes]
  | .config => [.constants]
  | .constants => []
  | .routes => [.routesApi, .routesFilters]
  | .routesApi => [.config, .controllersApi, .controllersSearch, .utils]
  | .routesFilters => [.wikidp, .constants, .utils]
  | .controllersApi => [.config, .constants, .models, .utils]
  | .controllersSearch => [.models, .utils]
  | .utils => [.config, .constants, .sparql, .utilsWdInt]
  | .utilsWdInt => []
  | .models => []
  | .sparql => []
  | .displayFunctions => [.lists]
  | .lists => []
  | .model => []
  | .wikidata => []

/-- Whether importing or running a module can read or write the persisted
key-value cache files: only `DisplayFunctions.py` does (`pickle.load` of
`wikidp/caches/url-formats`, `property-labels` and `item-labels` in
`load_caches`, run at import time, and `pickle.dump` in `save_caches`,
`qid_label` and `caching_label`). -/
def PyModule.usesCacheFiles : PyModule → Bool
  | .displayFunctions => true
  | _ => false

/-- One import-closure step over a module worklist. -/
def importStep (ms : List PyModule) : List PyModule :=
  (ms ++ ms.flatMap PyModule.importsOf).dedup

/-- The modules reachable from the application entry module `wikidp`
(`wikidp/__init__.py`), the import closure of the running program. Sixteen
steps exceed the sixteen-module graph's diameter. -/
def reachableModules : List PyModule :=
  importStep^[16] [.wikidp]

/-- Unfolding lemma: bind on a successful `Except`. -/
@[simp]
theorem exc_bind_ok {a : Type} {b : Type} (x : a) (f : a → Except PyExc b) :
    (Except.ok x >>= f) = f x := rfl

/-- Unfolding lemma: bind on a failed `Except`. -/
@[simp]
theorem exc_bind_error {a : Type} {b : Type} (e : PyExc) (f : a → Except PyExc b) :
    ((Except.error e : Except PyExc a) >>= f) = Except.error e := rfl

/-- Unfolding lemma: `pure` on `Except`. -/
@[simp]
theorem exc_pure {a : Type} (x : a) : (pure x : Except PyExc a) = Except.ok x := rfl

/-- Unfolding lemma: `Except.map` on success. -/
@[simp]
theorem exc_map_ok {a : Type} {b : Type} (x : a) (f : a → b) :
    Except.map f (Except.ok x : Except PyExc a) = Except.ok (f x) := rfl

/-- Unfolding lemma: `Except.map` on failure. -/
@[simp]
theorem exc_map_error {a : Type} {b : Type} (e : PyExc) (f : a → b) :
    Except.map f (Except.error e : Except PyExc a) = Except.error e := rfl

/-- Spec-side formulation of the search claim: map EVERY hit of the given
list through the entity detail parser (without claims), keeping the parsed
results in hit order and omitting hits for which the parser returned the
falsy `False`. -/
def mapHitsThroughParser (env : Env) : List String → Except PyExc (List ItemContext)
  | [] => .ok []
  | qid :: qs => do
    let r ← item_detail_parse env qid false
    let rest ← mapHitsThroughParser env qs
    match r with
    | .item ctx => pure (ctx :: rest)
    | .noItem => pure rest

theorem searchFold_append (env : Env) (qs : List String) (acc : List ItemContext) :
    List.foldlM (searchStep env) acc qs
      = (mapHitsThroughParser env qs).map (fun rest => acc ++ rest) := by
  induction qs generalizing acc with
  | nil => simp [mapHitsThroughParser, pure, Except.pure]
  | cons q qs ih =>
    simp only [List.foldlM_cons, mapHitsThroughParser]
    cases h : item_detail_parse env q false with
    | error e => simp [searchStep, h]
    | ok r =>
      cases r with
      | noItem =>
        have hs : searchStep env acc q = Except.ok acc := by
          simp [searchStep, h]
        rw [hs, exc_bind_ok, ih, exc_bind_ok]
        cases h2 : mapHitsThroughParser env qs with
        | error e => simp
        | ok rest => simp
      | item ctx =>
        have hs : searchStep env acc q = Except.ok (acc ++ [ctx]) := by
          simp [searchStep, h]
        rw [hs, exc_bind_ok, ih, exc_bind_ok]
        cases h2 : mapHitsThroughParser env qs with
        | error e => simp
        | ok rest => simp

theorem mapHits_length_le (env : Env) :
    ∀ qs out, mapHitsThroughParser env qs = .ok out → out.length ≤ qs.length := by
  intro qs
  induction qs with
  | nil =>
    intro out h
    simp only [mapHitsThroughParser] at h
    cases h
    simp
  | cons q qs ih =>
    intro out h
    simp only [mapHitsThroughParser] at h
    cases h1 : item_detail_parse env q false with
    | error e => rw [h1] at h; exact absurd h (by simp)
    | ok r =>
      rw [h1, exc_bind_ok] at h
      cases h2 : mapHitsThroughParser env qs with
      | error e =>
        rw [h2] at h
        cases r <;> exact absurd h (by simp)
      | ok rest =>
        rw [h2, exc_bind_ok] at h
        have hrest := ih rest h2
        cases r with
        | noItem =>
          have hh : out = rest := by
            simpa using h.symm
          subst hh
          exact Nat.le_succ_of_le hrest
        | item ctx =>
          have hh : out = ctx :: rest := by
            simpa using h.symm
          subst hh
          simpa using Nat.succ_le_succ hrest

/-- An environment in which every collaborator returns the empty/absent
response. -/
def trivialEnv : Env :=
  ⟨fun _ => Option.none, fun _ => [], fun _ => Option.none, fun _ => false,
   fun _ => [], "en", "en"⟩

/-- An environment whose text search returns eleven hits, each of which
parses to a (truthy) context. -/
def elevenHitEnv : Env :=
  ⟨fun _ => some (.dict [("x", .int 1)]), fun _ => [], fun _ => Option.none,
   fun _ => false,
   fun _ => ["Q1", "Q2", "Q3", "Q4", "Q5", "Q6", "Q7", "Q8", "Q9", "Q10", "Q11"],
   "en", "en"⟩

/-- C4 (amended): for every search string, `search_result_list` obtains the
hit identifiers from the text search call and maps each of the FIRST TEN
hits through the entity detail parser, returning the parsed results in hit
order with unparseable (falsy) hits omitted; hits beyond the tenth are
neither parsed nor included. -/
theorem search_result_list_first_ten_hits (env : Env) (s : String) :
    search_result_list env s = mapHitsThroughParser env ((env.searchResults s).take 10) := by
  unfold search_result_list
  rw [searchFold_append]
  cases h : mapHitsThroughParser env ((env.searchResults s).take 10) with
  | error e => simp
  | ok rest => simp

/-- C4 counterexample to the claim as stated: with eleven parseable hits the
controller returns ten results, while mapping EACH hit through the parser
(the claim's description) yields eleven — the eleventh parsed result is
dropped. -/
theorem search_result_list_truncation_counterexample :
    (search_result_list elevenHitEnv "fmt").map List.length = .ok 10 ∧
      (mapHitsThroughParser elevenHitEnv
        (elevenHitEnv.searchResults "fmt")).map List.length = .ok 11 :=
  ⟨rfl, rfl⟩

/-- C9: for every search string, `search_result_list` returns at most ten
items, however many hit identifiers the text search produced. -/
theorem search_result_list_at_most_ten (env : Env) (s : String)
    (out : List ItemContext) (h : search_result_list env s = .ok out) :
    out.length ≤ 10 := by
  unfold search_result_list at h
  rw [searchFold_append] at h
  cases h2 : mapHitsThroughParser env ((env.searchResults s).take 10) with
  | error e => rw [h2] at h; simp at h
  | ok rest =>
    rw [h2] at h
    simp only [exc_map_ok, List.nil_append, Except.ok.injEq] at h
    subst h
    exact le_trans (mapHits_length_le env _ rest h2)
      (le_trans (Nat.le_of_eq (List.length_take _ _))
        (min_le_left _ _))

/-- C9 witness: the theorem applied to a concrete search. -/
theorem search_result_list_at_most_ten_witness :
    ([] : List ItemContext).length ≤ 10 :=
  search_result_list_at_most_ten trivialEnv "x" [] rfl

/-- C10: whenever fetching the raw entity JSON fails (the wrapper returned
`None`), `item_detail_parse` returns the Python `False` — no exception, no
partial output dictionary. -/
theorem item_detail_parse_fetch_failure_returns_false (env : Env) (qid : String)
    (with_claims : Bool) (h : env.itemJson qid = Option.none) :
    item_detail_parse env qid with_claims = .ok ItemResult.noItem := by
  unfold item_detail_parse
  rw [h]
  rfl

/-- C10 witness: the theorem applied to a concrete failing fetch. -/
theorem item_detail_parse_fetch_failure_returns_false_witness :
    item_detail_parse trivialEnv "Q1" true = .ok ItemResult.noItem :=
  item_detail_parse_fetch_failure_returns_false trivialEnv "Q1" true rfl

/-- C7: no module reachable from the application entry module performs any
persisted key-value cache file operation; the only module that ever did —
`DisplayFunctions.py`, which pickled url-format, property-label and
item-label mappings — is not imported by any reachable module (the early
cache was removed), and the reachable set is closed under imports. -/
theorem program_performs_no_cache_file_operations :
    (∀ m ∈ reachableModules, m.usesCacheFiles = false) ∧
      PyModule.displayFunctions ∉ reachableModules ∧
      PyModule.displayFunctions.usesCacheFiles = true ∧
      (∀ m ∈ importStep reachableModules, m ∈ reachableModules) := by
  decide

/-- C7 witness: the theorem applied to a concrete reachable module. -/
theorem program_performs_no_cache_file_operations_witness :
    PyModule.utils.usesCacheFiles = false :=
  program_performs_no_cache_file_operations.1 PyModule.utils (by decide)

/-- Generic success lemma: a `mapM` whose function succeeds pointwise
returns the pointwise results. -/
theorem mapM_ok_of_forall {a b : Type} (f : a → Except PyExc b) (g : a → b) :
    ∀ (l : List a), (∀ x ∈ l, f x = .ok (g x)) → l.mapM f = .ok (l.map g) := by
  intro l
  induction l with
  | nil => intro _; rfl
  | cons x xs ih =>
    intro h
    rw [List.mapM_cons, h x (by simp), exc_bind_ok,
      ih (fun y hy => h y (by simp [hy]))]
    simp

/-- Spec-side formulation of the binding claim: the `value` field of a
binding cell, `None` when absent. -/
def cellValueSpec (cell : PyVal) : PyVal :=
  match cell with
  | .dict ys =>
    match ys.lookup "value" with
    | some v => v
    | Option.none => .none
  | _ => .none

/-- Spec-side formulation of the binding claim: one output mapping per
binding row, in row order, with exactly the row's keys, each bound to the
row entry's `value` field. -/
def flattenBindingsSpec (rows : List PyVal) : List (List (String × PyVal)) :=
  rows.map (fun r =>
    match r with
    | .dict kvs => kvs.map (fun kv => (kv.1, cellValueSpec kv.2))
    | _ => [])

/-- A SPARQL result's binding rows are mappings whose entries are mappings
(the shape the endpoint's JSON format guarantees). -/
def wellFormedBindings (rows : List PyVal) : Bool :=
  rows.all (fun r =>
    match r with
    | .dict kvs => kvs.all (fun kv => match kv.2 with | .dict _ => true | _ => false)
    | _ => false)

theorem format_bindings_flattens (rows : List PyVal)
    (h : wellFormedBindings rows = true) :
    _format_wikidata_bindings rows = .ok (flattenBindingsSpec rows) := by
  unfold _format_wikidata_bindings flattenBindingsSpec
  apply mapM_ok_of_forall
  intro r hr
  simp only [wellFormedBindings, List.all_eq_true] at h
  have hrw := h r hr
  cases r with
  | dict kvs =>
    apply mapM_ok_of_forall
    intro kv hkv
    simp only [List.all_eq_true] at hrw
    have := hrw kv hkv
    cases hc : kv.2 with
    | dict ys =>
      simp only [PyVal.get, PyVal.getD, cellValueSpec, hc]
      cases ys.lookup "value" <;> simp
    | str s => rw [hc] at this; simp at this
    | int n => rw [hc] at this; simp at this
    | float s => rw [hc] at this; simp at this
    | bool b => rw [hc] at this; simp at this
    | none => rw [hc] at this; simp at this
    | list xs => rw [hc] at this; simp at this
  | str s => simp at hrw
  | int n => simp at hrw
  | float s => simp at hrw
  | bool b => simp at hrw
  | none => simp at hrw
  | list xs => simp at hrw

/-- C5: the query execution wrapper flattens the bindings of a SPARQL
result into plain mappings — one output mapping per binding row, row order
preserved, each output mapping having exactly its row's keys, each bound to
that row entry's `value` field and to `None` when the entry has no `value`
field. -/
theorem process_query_string_flattens_bindings (sparqlResult : String → PyVal)
    (query : String) (resultsVal : PyVal) (rows : List PyVal)
    (h1 : (sparqlResult query).getItem "results" = .ok resultsVal)
    (h2 : resultsVal.get "bindings" = .ok (.list rows))
    (h3 : wellFormedBindings rows = true) :
    process_query_string sparqlResult query = .ok (flattenBindingsSpec rows) := by
  unfold process_query_string
  show ((sparqlResult query).getItem "results" >>= fun results =>
      results.get "bindings" >>= fun bindings =>
      pyIterate bindings >>= fun blist =>
      _format_wikidata_bindings blist) = _
  rw [h1, exc_bind_ok, h2, exc_bind_ok,
    show pyIterate (.list rows) = .ok rows from rfl, exc_bind_ok]
  exact format_bindings_flattens rows h3

/-- A concrete SPARQL endpoint response: one row with a bound and an
unbound-`value` cell, one empty row. -/
def sparqlEndpointExample : String → PyVal :=
  fun _ => .dict [("head", .dict [("vars", .list [.str "item"])]),
    ("results", .dict [("bindings", .list
      [.dict [("item", .dict [("type", .str "uri"), ("value", .str "http://www.wikidata.org/entity/Q42")]),
              ("label", .dict [("xml:lang", .str "en")])],
       .dict []])])]

/-- C5 witness: the theorem applied to the concrete endpoint response. -/
theorem process_query_string_flattens_bindings_witness :
    process_query_string sparqlEndpointExample "SELECT ..." =
      .ok [[("item", PyVal.str "http://www.wikidata.org/entity/Q42"),
            ("label", PyVal.none)], []] :=
  process_query_string_flattens_bindings sparqlEndpointExample "SELECT ..."
    (.dict [("bindings", .list
      [.dict [("item", .dict [("type", .str "uri"), ("value", .str "http://www.wikidata.org/entity/Q42")]),
              ("label", .dict [("xml:lang", .str "en")])],
       .dict []])])
    [.dict [("item", .dict [("type", .str "uri"), ("value", .str "http://www.wikidata.org/entity/Q42")]),
            ("label", .dict [("xml:lang", .str "en")])],
     .dict []]
    rfl rfl rfl

/-- Total lookup in a key/value list, `None` for a missing key. -/
def totalGet (xs : List (String × PyVal)) (k : String) : PyVal :=
  match xs.lookup k with
  | some v => v
  | Option.none => .none

/-- Total field access on a value (`None` off a dictionary or for a missing
key); the spec-side counterpart of `.get`. -/
def lookupTotal (v : PyVal) (k : String) : PyVal :=
  match v with
  | .dict xs => totalGet xs k
  | _ => .none

/-- Simp lemma: `.get` on a dictionary is the total lookup. -/
@[simp]
theorem dict_get_eq (ds : List (String × PyVal)) (k : String) :
    (PyVal.dict ds).get k = .ok (totalGet ds k) := by
  simp only [PyVal.get, PyVal.getD, totalGet]
  cases h : List.lookup k ds <;> simp [h]

/-- Spec-side reading of the supported data-type names (total on the names
the well-formedness condition admits). -/
def specWDDataType (v : PyVal) : WDDataType :=
  if v.eqStr "WikibaseItem" then .wikibaseItem else .wdString

theorem string_to_wd_datatype_spec (v : PyVal) (d : WDDataType)
    (h : STRING_TO_WD_DATATYPE v = some d) : d = specWDDataType v := by
  unfold STRING_TO_WD_DATATYPE at h
  unfold specWDDataType
  by_cases h1 : v.eqStr "WikibaseItem" = true
  · simp [h1] at h ⊢
    exact h.symm
  · simp [h1] at h ⊢
    by_cases h2 : v.eqStr "String" = true
    · simp [h2] at h
      exact h.symm
    · simp [h2] at h

/-- A posted claim element the write path accepts: a dictionary whose own
type name and those of all its qualifier and reference entries are
registered, with list-shaped qualifier and reference entries of
dictionaries. -/
def wellFormedClaimElement (cd : PyVal) : Bool :=
  match cd with
  | .dict _ =>
    (STRING_TO_WD_DATATYPE (lookupTotal cd "type")).isSome &&
    (match lookupTotal cd "qualifiers" with
     | .list qs => qs.all (fun q =>
        match q with
        | .dict _ => (STRING_TO_WD_DATATYPE (lookupTotal q "type")).isSome
        | _ => false)
     | _ => false) &&
    (match lookupTotal cd "references" with
     | .list rs => rs.all (fun r =>
        match r with
        | .dict _ => (STRING_TO_WD_DATATYPE (lookupTotal r "type")).isSome
        | _ => false)
     | _ => false)
  | _ => false

/-- Spec-side statement of claim C6: the statement object built for one
posted claim element — it carries the element's property id and value, one
qualifier object per entry of the element's qualifier list (flagged as
qualifier), and the element's reference objects wrapped in a doubly nested
list (each flagged as reference). -/
def statementSpec (cd : PyVal) : WDObject :=
  let quals := match lookupTotal cd "qualifiers" with | .list qs => qs | _ => []
  let refs := match lookupTotal cd "references" with | .list rs => rs | _ => []
  .mk (specWDDataType (lookupTotal cd "type"))
    (lookupTotal cd "value")
    (lookupTotal cd "pid")
    false false
    (quals.map (fun q => .mk (specWDDataType (lookupTotal q "type"))
      (lookupTotal q "value") (lookupTotal q "pid") true false [] []))
    [refs.map (fun r => .mk (specWDDataType (lookupTotal r "type"))
      (lookupTotal r "value") (lookupTotal r "pid") false true [] [])]

theorem wd_datatype_ok (t v p : PyVal) (b1 b2 : Bool) (q : List WDObject)
    (r : List (List WDObject)) (hq : (STRING_TO_WD_DATATYPE t).isSome = true) :
    wd_datatype t v p b1 b2 q r = .ok (.mk (specWDDataType t) v p b1 b2 q r) := by
  unfold wd_datatype
  cases h : STRING_TO_WD_DATATYPE t with
  | none => rw [h] at hq; simp at hq
  | some d =>
    have hd := string_to_wd_datatype_spec t d h
    subst hd
    simp

theorem write_element_ok (cd : PyVal) (h : wellFormedClaimElement cd = true) :
    (cd.get "pid" >>= fun pid =>
     cd.get "value" >>= fun v =>
     cd.get "type" >>= fun t =>
     cd.get "qualifiers" >>= fun q =>
     cd.get "references" >>= fun r =>
     build_statement pid v t q r) = .ok (statementSpec cd) := by
  cases cd with
  | dict ds =>
    simp only [wellFormedClaimElement, lookupTotal, Bool.and_eq_true] at h
    obtain ⟨⟨h1, h2⟩, h3⟩ := h
    simp only [dict_get_eq, exc_bind_ok]
    cases hqv : totalGet ds "qualifiers" with
    | list qs =>
      cases hrv : totalGet ds "references" with
      | list rs =>
        rw [hqv] at h2
        rw [hrv] at h3
        simp only [List.all_eq_true] at h2 h3
        unfold build_statement
        rw [show pyIterate (.list qs) = .ok qs from rfl, exc_bind_ok]
        rw [mapM_ok_of_forall _
          (fun q => WDObject.mk (specWDDataType (lookupTotal q "type"))
            (lookupTotal q "value") (lookupTotal q "pid") true false [] []) qs ?_,
          exc_bind_ok]
        · rw [show pyIterate (.list rs) = .ok rs from rfl, exc_bind_ok]
          rw [mapM_ok_of_forall _
            (fun r => WDObject.mk (specWDDataType (lookupTotal r "type"))
              (lookupTotal r "value") (lookupTotal r "pid") false true [] []) rs ?_,
            exc_bind_ok]
          · rw [wd_datatype_ok _ _ _ _ _ _ _ h1]
            simp only [statementSpec, lookupTotal, hqv, hrv]
          · intro r hr
            have := h3 r hr
            cases r with
            | dict rds =>
              simp only [dict_get_eq, exc_bind_ok, lookupTotal]
              exact wd_datatype_ok _ _ _ _ _ _ _ (by simpa [lookupTotal] using this)
            | str s => simp at this
            | int n => simp at this
            | float s => simp at this
            | bool b => simp at this
            | none => simp at this
            | list xs => simp at this
        · intro q hq
          have := h2 q hq
          cases q with
          | dict qds =>
            simp only [dict_get_eq, exc_bind_ok, lookupTotal]
            exact wd_datatype_ok _ _ _ _ _ _ _ (by simpa [lookupTotal] using this)
          | str s => simp at this
          | int n => simp at this
          | float s => simp at this
          | bool b => simp at this
          | none => simp at this
          | list xs => simp at this
      | dict xs => rw [hrv] at h3; simp at h3
      | str s => rw [hrv] at h3; simp at h3
      | int n => rw [hrv] at h3; simp at h3
      | float s => rw [hrv] at h3; simp at h3
      | bool b => rw [hrv] at h3; simp at h3
      | none => rw [hrv] at h3; simp at h3
    | dict xs => rw [hqv] at h2; simp at h2
    | str s => rw [hqv] at h2; simp at h2
    | int n => rw [hqv] at h2; simp at h2
    | float s => rw [hqv] at h2; simp at h2
    | bool b => rw [hqv] at h2; simp at h2
    | none => rw [hqv] at h2; simp at h2
  | str s => simp [wellFormedClaimElement] at h
  | int n => simp [wellFormedClaimElement] at h
  | float s => simp [wellFormedClaimElement] at h
  | bool b => simp [wellFormedClaimElement] at h
  | none => simp [wellFormedClaimElement] at h
  | list xs => simp [wellFormedClaimElement] at h

/-- C6: for every posted list of well-formed claim data, the write
controller builds exactly one statement object per list element — each
carrying the element's property id and value, one qualifier object per
entry of the element's qualifier list (flagged as qualifier), and the
element's reference objects wrapped in a doubly nested list (each flagged
as reference) — and submits them through the knowledge-base client's
authenticated write path (the built login against the configured MediaWiki
API). -/
theorem write_claims_to_item_builds_statements (env : ApiEnv) (qid : String)
    (elements : List PyVal) (h : elements.all wellFormedClaimElement = true) :
    write_claims_to_item env qid (.list elements) =
      .ok ⟨qid, env.mediawikiApiUrl, elements.map statementSpec, build_login env⟩ := by
  unfold write_claims_to_item
  rw [show pyIterate (.list elements) = .ok elements from rfl, exc_bind_ok]
  rw [mapM_ok_of_forall _ statementSpec elements
    (fun cd hcd => write_element_ok cd (by
      simp only [List.all_eq_true] at h
      exact h cd hcd)), exc_bind_ok]
  rfl

/-- C6 witness: one posted element with one qualifier and one reference. -/
theorem write_claims_to_item_builds_statements_witness :
    write_claims_to_item ⟨"https://api.example/w/api.php", "bot", "pw"⟩ "Q1"
      (.list [.dict [("pid", .str "P31"), ("value", .str "Q11424"),
        ("type", .str "WikibaseItem"),
        ("qualifiers", .list [.dict [("pid", .str "P580"), ("value", .str "2001"),
          ("type", .str "String")]]),
        ("references", .list [.dict [("pid", .str "P854"), ("value", .str "https://x"),
          ("type", .str "String")]])]]) =
      .ok ⟨"Q1", "https://api.example/w/api.php",
        [.mk .wikibaseItem (.str "Q11424") (.str "P31") false false
          [.mk .wdString (.str "2001") (.str "P580") true false [] []]
          [[.mk .wdString (.str "https://x") (.str "P854") false true [] []]]],
        ⟨"https://api.example/w/api.php", "bot", "pw"⟩⟩ :=
  write_claims_to_item_builds_statements ⟨"https://api.example/w/api.php", "bot", "pw"⟩
    "Q1"
    [.dict [("pid", .str "P31"), ("value", .str "Q11424"),
      ("type", .str "WikibaseItem"),
      ("qualifiers", .list [.dict [("pid", .str "P580"), ("value", .str "2001"),
        ("type", .str "String")]]),
      ("references", .list [.dict [("pid", .str "P854"), ("value", .str "https://x"),
        ("type", .str "String")]])]]
    rfl

/-- A structurally valid quantity snak whose amount parses as neither `int`
nor `float`. -/
def quantityBadAmountSnak : PyVal :=
  .dict [("snaktype", .str "value"), ("datatype", .str "quantity"),
    ("datavalue", .dict [("type", .str "quantity"),
      ("value", .dict [("amount", .str "abc")])])]

/-- C3 counterexample to the claim as stated: the current `parse_snak`
catches only `KeyError`, so the `ValueError` raised when a quantity amount
parses as neither `int` nor `float` propagates to the caller instead of
being caught and logged. -/
theorem parse_snak_propagates_value_error_counterexample :
    parse_snak trivialEnv "P1128" quantityBadAmountSnak = .error .valueError := rfl

/-- C3 (amended): `parse_snak` in `utils/__init__.py` returns `None` (never
raises) when the snaktype key lookup fails, when the snaktype is `novalue`,
and when the snak lacks a `datavalue`; any exception it does propagate is
not a `KeyError` (those are caught and logged); and the older `utils.py`
`parse_snak`, whose handler is a catch-all, converts every exception of its
body into `None` with the cache unchanged — only the current version can
propagate non-`KeyError` exceptions such as the quantity `ValueError`. -/
theorem parse_snak_error_handling (env : Env) (pid : String) (snak : PyVal)
    (cache : LabelCache) :
    (snak.getItem "snaktype" = .error .keyError →
      parse_snak env pid snak = .ok Option.none) ∧
    (∀ st, snak.getItem "snaktype" = .ok st → st.eqStr "novalue" = true →
      parse_snak env pid snak = .ok Option.none) ∧
    (∀ st, snak.getItem "snaktype" = .ok st → pyIn "datavalue" snak = .ok false →
      parse_snak env pid snak = .ok Option.none) ∧
    (∀ e, parse_snak env pid snak = .error e → e ≠ .keyError) ∧
    (∀ e, parse_snak_legacy_body env pid snak cache = .error e →
      parse_snak_legacy env pid snak cache = (Option.none, cache)) := by
  refine ⟨?_, ?_, ?_, ?_, ?_⟩
  · intro h
    unfold parse_snak parse_snak_body
    rw [h]
    rfl
  · intro st h h2
    unfold parse_snak parse_snak_body
    rw [h, exc_bind_ok, h2]
    rfl
  · intro st h h2
    unfold parse_snak parse_snak_body
    rw [h, exc_bind_ok]
    by_cases h3 : st.eqStr "novalue" = true
    · rw [h3]; rfl
    · rw [Bool.eq_false_iff.mpr h3]
      simp only [Bool.false_eq_true, if_false, h2, exc_bind_ok]
      rfl
  · intro e he
    unfold parse_snak at he
    cases hb : parse_snak_body env pid snak with
    | ok r => rw [hb] at he; simp at he
    | error c =>
      rw [hb] at he
      cases c with
      | keyError => simp at he
      | typeError => simp at he; subst he; simp
      | attributeError => simp at he; subst he; simp
      | valueError => simp at he; subst he; simp
  · intro e he
    unfold parse_snak_legacy
    rw [he]

/-- C3 witness: the theorem's missing-datavalue case applied to a concrete
snak. -/
theorem parse_snak_error_handling_witness :
    parse_snak trivialEnv "P1" (.dict [("snaktype", .str "somevalue")]) = .ok Option.none :=
  (parse_snak_error_handling trivialEnv "P1"
      (.dict [("snaktype", .str "somevalue")]) []).2.2.1
    (.str "somevalue") rfl rfl

theorem pid_label_cache (env : Env) (pid : String) (c : LabelCache) :
    (pid_label env pid c).2 = c ∨
      ((c.map Prod.fst).contains pid = false ∧
        (pid_label env pid c).2 = c ++ [(pid, (pid_label env pid c).1)]) := by
  unfold pid_label
  cases h : (c.map Prod.fst).contains pid with
  | true => left; simp [h]
  | false => right; simp [h]

theorem lookup_append_single (c : LabelCache) (p k : String) (v : PyVal)
    (hk : (c.map Prod.fst).contains k = true) :
    List.lookup k (c ++ [(p, v)]) = List.lookup k c := by
  induction c with
  | nil => simp at hk
  | cons x xs ih =>
    simp only [List.map_cons, List.contains_cons] at hk
    simp only [List.cons_append, List.lookup]
    by_cases hx : (k == x.1) = true
    · simp [hx]
    · simp only [hx]
      apply ih
      rcases Bool.or_eq_true_iff.mp hk with h1 | h1
      · exact absurd (by simpa [eq_comm] using beq_iff_eq.mp h1) (by simpa using hx)
      · exact h1


theorem exc_bind_ok_inv {a b : Type} {x : Except PyExc a} {f : a → Except PyExc b}
    {r : b} (h : (x >>= f) = .ok r) : ∃ v, x = .ok v ∧ f v = .ok r := by
  cases x with
  | ok v => exact ⟨v, rfl, h⟩
  | error e => simp at h

theorem parse_snak_legacy_body_cache (env : Env) (pid : String) (snak : PyVal)
    (cache : LabelCache) (r : Option SnakRecord) (c2 : LabelCache)
    (h : parse_snak_legacy_body env pid snak cache = .ok (r, c2)) :
    c2 = cache ∨
      ∃ p v, (cache.map Prod.fst).contains p = false ∧ c2 = cache ++ [(p, v)] := by
  unfold parse_snak_legacy_body at h
  obtain ⟨st, h1, h⟩ := exc_bind_ok_inv h
  by_cases hnv : st.eqStr "novalue" = true
  · rw [if_pos hnv] at h
    simp only [exc_pure] at h
    cases h
    exact Or.inl rfl
  · rw [if_neg hnv] at h
    obtain ⟨hasdv, h2, h⟩ := exc_bind_ok_inv h
    by_cases hdv : (!hasdv) = true
    · rw [if_pos hdv] at h
      simp only [exc_pure] at h
      cases h
      exact Or.inl rfl
    · rw [if_neg hdv] at h
      obtain ⟨pt0, h3, h⟩ := exc_bind_ok_inv h
      obtain ⟨dv, h4, h⟩ := exc_bind_ok_inv h
      obtain ⟨dt, h5, h⟩ := exc_bind_ok_inv h
      obtain ⟨dval, h6, h⟩ := exc_bind_ok_inv h
      by_cases h7 : (["P18", "P154"].contains pid) = true
      · rw [if_pos h7] at h
        obtain ⟨val, h8, h⟩ := exc_bind_ok_inv h
        simp only [exc_pure] at h
        cases h
        exact Or.inl rfl
      · rw [if_neg h7] at h
        by_cases h9 : pt0.eqStr "external-id" = true
        · rw [if_pos h9] at h
          obtain ⟨url, h10, h⟩ := exc_bind_ok_inv h
          simp only [exc_pure] at h
          cases h
          exact Or.inl rfl
        · rw [if_neg h9] at h
          by_cases h11 : dt.eqStr "string" = true
          · rw [if_pos h11] at h
            simp only [exc_pure] at h
            cases h
            exact Or.inl rfl
          · rw [if_neg h11] at h
            by_cases h12 : dt.eqStr "wikibase-entityid" = true
            · rw [if_pos h12] at h
              obtain ⟨pt, h13, h⟩ := exc_bind_ok_inv h
              by_cases h14 : pt.eqStr "property" = true
              · rw [if_pos h14] at h
                obtain ⟨nid, h15, h⟩ := exc_bind_ok_inv h
                simp only [exc_pure] at h
                cases hpl : pid_label env ("P" ++ pyStr nid) cache with
                | mk label cache2 =>
                  rw [hpl] at h
                  simp only [] at h
                  cases h
                  rcases pid_label_cache env ("P" ++ pyStr nid) cache with hc | ⟨hc1, hc2⟩
                  · rw [hpl] at hc
                    exact Or.inl hc
                  · rw [hpl] at hc2
                    exact Or.inr ⟨_, _, hc1, hc2⟩
              · rw [if_neg h14] at h
                obtain ⟨idv, h15, h⟩ := exc_bind_ok_inv h
                simp only [exc_pure] at h
                cases h
                exact Or.inl rfl
            · rw [if_neg h12] at h
              by_cases h16 : dt.eqStr "time" = true
              · rw [if_pos h16] at h
                obtain ⟨t, h17, h⟩ := exc_bind_ok_inv h
                simp only [exc_pure] at h
                cases h
                exact Or.inl rfl
              · rw [if_neg h16] at h
                obtain ⟨isQ, h18, h⟩ := exc_bind_ok_inv h
                by_cases h19 : isQ = true
                · rw [if_pos h19] at h
                  obtain ⟨num, h20, h⟩ := exc_bind_ok_inv h
                  obtain ⟨val, h21, h⟩ := exc_bind_ok_inv h
                  simp only [exc_pure] at h
                  cases h
                  exact Or.inl rfl
                · rw [if_neg h19] at h
                  by_cases h22 : dt.eqStr "monolingualtext" = true
                  · rw [if_pos h22] at h
                    obtain ⟨text, h23, h⟩ := exc_bind_ok_inv h
                    obtain ⟨lang, h24, h⟩ := exc_bind_ok_inv h
                    simp only [exc_pure] at h
                    cases h
                    exact Or.inl rfl
                  · rw [if_neg h22] at h
                    simp only [exc_pure] at h
                    cases h
                    exact Or.inl rfl

/-- A snak whose value is a property-type entity reference: parsing it in
the legacy code path consults `pid_label`. -/
def propertyEntitySnak : PyVal :=
  .dict [("snaktype", .str "value"), ("datatype", .str "wikibase-item"),
    ("datavalue", .dict [("type", .str "wikibase-entityid"),
      ("value", .dict [("entity-type", .str "property"), ("numeric-id", .int 31)])])]

/-- C8 counterexample to the claim as stated: running the `utils.py`
`parse_snak` on a property-type entity value with an empty cache leaves the
cache mutated — the missing property's label is inserted — so the call does
not leave its arguments unchanged. -/
theorem parse_snak_legacy_mutates_cache_counterexample :
    (parse_snak_legacy trivialEnv "P5" propertyEntitySnak []).2 =
      [("P31", PyVal.str "property P31")] ∧
      [("P31", PyVal.str "property P31")] ≠ ([] : LabelCache) :=
  ⟨rfl, by simp⟩

/-- C8 (amended): the `utils.py` `parse_snak` is deterministic by
construction (a pure function of the snak and the collaborator responses),
but it may mutate the property-label cache passed to it: a run either
leaves the cache unchanged or appends a single binding for a property id
that was not cached (the `pid_label` insertion for a property-type entity
value); in particular the cached value of every already-present key is
unchanged. -/
theorem parse_snak_legacy_cache_append_only (env : Env) (pid : String)
    (snak : PyVal) (cache : LabelCache) :
    ((parse_snak_legacy env pid snak cache).2 = cache ∨
      ∃ p v, (cache.map Prod.fst).contains p = false ∧
        (parse_snak_legacy env pid snak cache).2 = cache ++ [(p, v)]) ∧
    (∀ k, (cache.map Prod.fst).contains k = true →
      List.lookup k (parse_snak_legacy env pid snak cache).2 = List.lookup k cache) := by
  have hmain : (parse_snak_legacy env pid snak cache).2 = cache ∨
      ∃ p v, (cache.map Prod.fst).contains p = false ∧
        (parse_snak_legacy env pid snak cache).2 = cache ++ [(p, v)] := by
    cases hb : parse_snak_legacy_body env pid snak cache with
    | error e => left; simp [parse_snak_legacy, hb]
    | ok rc =>
      cases rc with
      | mk r0 c0 =>
        have hcc := parse_snak_legacy_body_cache env pid snak cache r0 c0 hb
        simpa [parse_snak_legacy, hb] using hcc
  refine ⟨hmain, ?_⟩
  intro k hk
  rcases hmain with hc | ⟨p, v, hp, hc⟩
  · rw [hc]
  · rw [hc]
    exact lookup_append_single cache p k v hk

/-- C8 witness: an existing cache entry survives a mutating run. -/
theorem parse_snak_legacy_cache_append_only_witness :
    List.lookup "P7" (parse_snak_legacy trivialEnv "P5" propertyEntitySnak
        [("P7", PyVal.str "label7")]).2 =
      List.lookup "P7" [("P7", PyVal.str "label7")] :=
  (parse_snak_legacy_cache_append_only trivialEnv "P5" propertyEntitySnak
    [("P7", PyVal.str "label7")]).2 "P7" rfl

theorem contains_of_lookup_some {b : Type} {xs : List (String × b)} {k : String}
    {v : b} (h : List.lookup k xs = some v) :
    ((xs.map Prod.fst).contains k) = true := by
  induction xs with
  | nil => simp at h
  | cons x t ih =>
    simp only [List.lookup] at h
    by_cases hk : (k == x.1) = true
    · simp [beq_iff_eq.mp hk]
    · rw [show (k == x.1) = false from by simpa using hk] at h
      have h2 : List.lookup k t = some v := h
      simp only [List.map_cons, List.contains_cons, ih h2, Bool.or_true]

/-- Spec-side: the value-type tag of a snak (the `type` of its data value). -/
def snakTag (snak : PyVal) : PyVal :=
  lookupTotal (lookupTotal snak "datavalue") "type"

/-- Spec-side: the data value of a snak. -/
def snakDataValue (snak : PyVal) : PyVal :=
  lookupTotal (lookupTotal snak "datavalue") "value"

/-- Total field access with a default, the spec-side counterpart of
`.get(k, default)`. -/
def lookupTotalD (v : PyVal) (k : String) (d : PyVal) : PyVal :=
  match v with
  | .dict xs =>
    match xs.lookup k with
    | some w => w
    | Option.none => d
  | _ => d

/-- Whether a value is a dictionary carrying the given key. -/
def hasKey (v : PyVal) (k : String) : Bool :=
  match v with
  | .dict xs => (xs.map Prod.fst).contains k
  | _ => false

/-- Whether a value is a string. -/
def isStrB : PyVal → Bool
  | .str _ => true
  | _ => false

/-- Whether a value is a dictionary. -/
def isDictB : PyVal → Bool
  | .dict _ => true
  | _ => false

/-- The string carried by a string value (`""` otherwise). -/
def strVal : PyVal → String
  | .str s => s
  | _ => ""

/-- Spec-side image rule: the title, underscored, resolved through the
Commons API with the file-page fallback. -/
def imageUrlSpec (env : Env) (title : String) : String :=
  let t := pyStrReplace title " " "_"
  match env.fetchImageUrl t with
  | some u => u
  | Option.none => WIKIMEDIA_COMMONS_BASE_URL ++ "/wiki/File:" ++ t

/-- Spec-side external-id rule: the property's formatter URL applied to the
stripped value, `None` when the property or its formatter is unavailable. -/
def formatterUrlSpec (env : Env) (pid : String) (value : String) : PyVal :=
  match get_property env pid with
  | some prop =>
    match prop.lookup "formatter_url" with
    | some (.str fmt) => .str (pyStrReplace fmt "$1" (pyStrip value))
    | some _ => PyVal.none
    | Option.none => PyVal.none
  | Option.none => PyVal.none

/-- Whether the property's stored formatter url, if any, is a string (the
shape on which the external-id branch cannot raise). -/
def formatterOk (env : Env) (pid : String) : Bool :=
  match get_property env pid with
  | some prop =>
    match prop.lookup "formatter_url" with
    | some (.str _) => true
    | some _ => false
    | Option.none => true
  | Option.none => true

/-- Spec-side quantity rule: the amount parsed as `int`, else as `float`. -/
def intElseFloatSpec (num : PyVal) : PyVal :=
  match num with
  | .int n => .int n
  | .bool b => .int (if b then 1 else 0)
  | .str s =>
    match pyIntOfString s with
    | some n => .int n
    | Option.none => .float s
  | .float s =>
    match pyFloatTruncInt s with
    | some n => .int n
    | Option.none => PyVal.none
  | _ => PyVal.none

/-- Whether an amount value is one `int(num)` or `float(num)` accepts. -/
def amountParses : PyVal → Bool
  | .int _ => true
  | .bool _ => true
  | .str s => (pyIntOfString s).isSome || pyFloatAccepts s
  | .float s => (pyFloatTruncInt s).isSome
  | _ => false

/-- Whether the quantity rule applies: the tag is `quantity` and the data
value carries an `amount` field. -/
def quantityWithAmount (tag dval : PyVal) : Bool :=
  tag.eqStr "quantity" && hasKey dval "amount"

/-- Spec-side statement of claim C1 (amended): the value-formatting table of
`parse_snak` — the property id selects the image rule first (`P18`/`P154`),
then the snak's declared datatype selects the external-id rule, then the
data value's type tag selects string (kept as is), entity reference (mapped
to its id, a property reference to `P{numeric-id}`), time (the time
formatter), quantity with an amount (int else float), or monolingual text
(rendered as `"text" (language: lang)`); any other tag — including a
quantity without an amount — yields the `Unable To Parse Value` message. -/
def snakValueSpec (env : Env) (pid : String) (snak : PyVal) : PyVal :=
  if ["P18", "P154"].contains pid then
    .str (imageUrlSpec env (strVal (snakDataValue snak)))
  else if (lookupTotal snak "datatype").eqStr "external-id" then
    .dict [("url", formatterUrlSpec env pid (strVal (snakDataValue snak))),
           ("label", snakDataValue snak)]
  else if (snakTag snak).eqStr "string" then snakDataValue snak
  else if (snakTag snak).eqStr "wikibase-entityid" then
    if (lookupTotal (snakDataValue snak) "entity-type").eqStr "property" then
      .str ("P" ++ pyStr (lookupTotal (snakDataValue snak) "numeric-id"))
    else lookupTotal (snakDataValue snak) "id"
  else if (snakTag snak).eqStr "time" then
    time_formatter (lookupTotal (snakDataValue snak) "time")
  else if quantityWithAmount (snakTag snak) (snakDataValue snak) then
    intElseFloatSpec (lookupTotal (snakDataValue snak) "amount")
  else if (snakTag snak).eqStr "monolingualtext" then
    .str ("\"" ++ pyStr (lookupTotalD (snakDataValue snak) "text" (.str "")) ++
      "\" (language: " ++
      pyStr (lookupTotalD (snakDataValue snak) "language" (.str "unknown")) ++ ")")
  else .str ("Unable To Parse Value " ++ pyStr (snakTag snak))

/-- Whether `parse_snak` can format the snak without an exception: the main
data is present (a dictionary snak that is not `novalue` and has a
`datavalue` dictionary) and the data value has the shape its branch needs —
a string title for an image, a string value and a string or absent
formatter url for an external id, a dictionary for entity, time and
monolingual values, and for a quantity either a parseable carried amount or
a shape on which the `amount` test itself cannot raise. -/
def wellFormedSnak (env : Env) (pid : String) (snak : PyVal) : Bool :=
  isDictB snak && hasKey snak "snaktype" &&
  !(lookupTotal snak "snaktype").eqStr "novalue" &&
  hasKey snak "datavalue" && isDictB (lookupTotal snak "datavalue") &&
  (if ["P18", "P154"].contains pid then isStrB (snakDataValue snak)
   else if (lookupTotal snak "datatype").eqStr "external-id" then
     isStrB (snakDataValue snak) && formatterOk env pid
   else if (snakTag snak).eqStr "string" then true
   else if (snakTag snak).eqStr "wikibase-entityid" then isDictB (snakDataValue snak)
   else if (snakTag snak).eqStr "time" then isDictB (snakDataValue snak)
   else if (snakTag snak).eqStr "quantity" then
     (if isDictB (snakDataValue snak) then
        (if hasKey (snakDataValue snak) "amount" then
          amountParses (lookupTotal (snakDataValue snak) "amount")
         else true)
      else
        match snakDataValue snak with
        | .str s => !charsContains ("amount".toList) s.toList
        | .list xs => !xs.any (fun x => x.eqStr "amount")
        | _ => false)
   else if (snakTag snak).eqStr "monolingualtext" then isDictB (snakDataValue snak)
   else true)

theorem lookup_some_of_contains {b : Type} (xs : List (String × b)) (k : String)
    (h : ((xs.map Prod.fst).contains k) = true) : ∃ v, List.lookup k xs = some v := by
  induction xs with
  | nil => simp at h
  | cons x t ih =>
    simp only [List.map_cons, List.contains_cons] at h
    by_cases hk : (k == x.1) = true
    · exact ⟨x.2, by simp [List.lookup, hk]⟩
    · rcases Bool.or_eq_true_iff.mp h with h1 | h1
      · exact absurd (by simpa [eq_comm] using beq_iff_eq.mp h1) (by simpa using hk)
      · obtain ⟨v, hv⟩ := ih h1
        exact ⟨v, by simp [List.lookup, hk, hv]⟩

theorem getItem_eq_of_hasKey {v : PyVal} {k : String} (h : hasKey v k = true) :
    v.getItem k = .ok (lookupTotal v k) := by
  cases v with
  | dict xs =>
    obtain ⟨w, hw⟩ := lookup_some_of_contains xs k (by simpa [hasKey] using h)
    simp [PyVal.getItem, lookupTotal, totalGet, hw]
  | str s => simp [hasKey] at h
  | int n => simp [hasKey] at h
  | float s => simp [hasKey] at h
  | bool b => simp [hasKey] at h
  | none => simp [hasKey] at h
  | list xs => simp [hasKey] at h

theorem get_eq_of_dict {v : PyVal} (h : isDictB v = true) (k : String) :
    v.get k = .ok (lookupTotal v k) := by
  cases v with
  | dict xs => exact dict_get_eq xs k
  | str s => simp [isDictB] at h
  | int n => simp [isDictB] at h
  | float s => simp [isDictB] at h
  | bool b => simp [isDictB] at h
  | none => simp [isDictB] at h
  | list xs => simp [isDictB] at h

theorem getD_eq_of_dict {v : PyVal} (h : isDictB v = true) (k : String) (d : PyVal) :
    v.getD k d = .ok (lookupTotalD v k d) := by
  cases v with
  | dict xs =>
    simp only [PyVal.getD, lookupTotalD]
    cases hl : List.lookup k xs <;> simp [hl]
  | str s => simp [isDictB] at h
  | int n => simp [isDictB] at h
  | float s => simp [isDictB] at h
  | bool b => simp [isDictB] at h
  | none => simp [isDictB] at h
  | list xs => simp [isDictB] at h

theorem pyIn_eq_of_dict {v : PyVal} (h : isDictB v = true) (k : String) :
    pyIn k v = .ok (hasKey v k) := by
  cases v with
  | dict xs => rfl
  | str s => simp [isDictB] at h
  | int n => simp [isDictB] at h
  | float s => simp [isDictB] at h
  | bool b => simp [isDictB] at h
  | none => simp [isDictB] at h
  | list xs => simp [isDictB] at h

theorem image_url_ok (env : Env) (title : String) :
    get_wikimedia_image_url_from_title env (.str title) =
      .ok (.str (imageUrlSpec env title)) := by
  unfold get_wikimedia_image_url_from_title imageUrlSpec
  simp only [exc_bind_ok]
  cases env.fetchImageUrl (pyStrReplace title " " "_") <;> simp

theorem format_url_ok (env : Env) (pid : String) (s : String)
    (hfmt : formatterOk env pid = true) :
    format_url_from_property env pid (.str s) = .ok (formatterUrlSpec env pid s) := by
  unfold format_url_from_property formatterUrlSpec
  unfold formatterOk at hfmt
  simp only [exc_bind_ok]
  cases hp : get_property env pid with
  | none => simp [hp]
  | some prop =>
    rw [hp] at hfmt
    cases hf : prop.lookup "formatter_url" with
    | none => simp [hp, hf]
    | some f => cases f <;> simp_all [hp, hf, pyStrip]

theorem pyIntOrFloat_ok (v : PyVal) (hp : amountParses v = true) :
    pyIntOrFloat v = .ok (intElseFloatSpec v) := by
  cases v with
  | int n => rfl
  | bool b => rfl
  | str s =>
    simp only [pyIntOrFloat, intElseFloatSpec]
    cases hi : pyIntOfString s with
    | some n => simp
    | none =>
      simp only [amountParses, hi] at hp ⊢
      simp at hp
      simp [hp]
  | float s =>
    simp only [pyIntOrFloat, intElseFloatSpec]
    cases hi : pyFloatTruncInt s with
    | some n => simp
    | none => simp [amountParses, hi] at hp
  | none => simp [amountParses] at hp
  | list xs => simp [amountParses] at hp
  | dict xs => simp [amountParses] at hp

theorem eqStr_exclusive {v : PyVal} {a b : String} (h : v.eqStr a = true)
    (hab : b ≠ a) : v.eqStr b = false := by
  cases v <;> simp [PyVal.eqStr] at h ⊢
  subst h
  exact fun hh => hab hh.symm

set_option maxHeartbeats 1000000 in
theorem parse_snak_value_formatting (env : Env) (pid : String) (snak : PyVal)
    (h : wellFormedSnak env pid snak = true) :
    ∃ r, parse_snak env pid snak = .ok (some r) ∧
      r.value = snakValueSpec env pid snak ∧ r.type = snakTag snak := by
  unfold wellFormedSnak at h
  simp only [Bool.and_eq_true] at h
  obtain ⟨⟨⟨⟨⟨h1, h2⟩, h3⟩, h4⟩, h5⟩, hshape⟩ := h
  have h3' : (lookupTotal snak "snaktype").eqStr "novalue" = false := by
    simpa using h3
  suffices hb : ∃ r, parse_snak_body env pid snak = .ok (some r) ∧
      r.value = snakValueSpec env pid snak ∧ r.type = snakTag snak by
    obtain ⟨r, hr, hv, ht⟩ := hb
    exact ⟨r, by simp [parse_snak, hr], hv, ht⟩
  unfold parse_snak_body
  simp only [getItem_eq_of_hasKey h2, getItem_eq_of_hasKey h4,
    pyIn_eq_of_dict h1, get_eq_of_dict h1, get_eq_of_dict h5, exc_bind_ok,
    h3', h4, Bool.false_eq_true, Bool.not_true, if_false,
    show lookupTotal (lookupTotal snak "datavalue") "type" = snakTag snak from rfl,
    show lookupTotal (lookupTotal snak "datavalue") "value" = snakDataValue snak from rfl]
  by_cases hA : (["P18", "P154"].contains pid) = true
  · rw [if_pos hA] at hshape ⊢
    have hA2 : pid = "P18" ∨ pid = "P154" := by simpa using hA
    cases hdva : snakDataValue snak with
    | str title =>
      rw [image_url_ok]
      simp only [exc_bind_ok, exc_pure]
      refine ⟨⟨.str (imageUrlSpec env title), .str "image", snakTag snak⟩, rfl, ?_, rfl⟩
      simp [snakValueSpec, hA2, hdva, strVal]
    | int n => rw [hdva] at hshape; simp [isStrB] at hshape
    | float s => rw [hdva] at hshape; simp [isStrB] at hshape
    | bool b => rw [hdva] at hshape; simp [isStrB] at hshape
    | none => rw [hdva] at hshape; simp [isStrB] at hshape
    | list xs => rw [hdva] at hshape; simp [isStrB] at hshape
    | dict xs => rw [hdva] at hshape; simp [isStrB] at hshape
  · rw [if_neg hA] at hshape ⊢
    have hA2 : ¬(pid = "P18" ∨ pid = "P154") := by simpa using hA
    by_cases hB : (lookupTotal snak "datatype").eqStr "external-id" = true
    · rw [if_pos hB] at hshape ⊢
      simp only [Bool.and_eq_true] at hshape
      obtain ⟨hs, hfmt⟩ := hshape
      cases hdva : snakDataValue snak with
      | str sv =>
        rw [format_url_ok env pid sv hfmt]
        simp only [exc_bind_ok, exc_pure]
        refine ⟨⟨.dict [("url", formatterUrlSpec env pid sv), ("label", .str sv)],
          lookupTotal snak "datatype", snakTag snak⟩, rfl, ?_, rfl⟩
        simp [snakValueSpec, hA2, hB, hdva, strVal]
      | int n => rw [hdva] at hs; simp [isStrB] at hs
      | float s => rw [hdva] at hs; simp [isStrB] at hs
      | bool b => rw [hdva] at hs; simp [isStrB] at hs
      | none => rw [hdva] at hs; simp [isStrB] at hs
      | list xs => rw [hdva] at hs; simp [isStrB] at hs
      | dict xs => rw [hdva] at hs; simp [isStrB] at hs
    · rw [if_neg hB] at hshape ⊢
      by_cases hC : (snakTag snak).eqStr "string" = true
      · rw [if_pos hC]
        simp only [exc_pure]
        refine ⟨⟨snakDataValue snak,
          if env.urlCheck (snakDataValue snak) = true then PyVal.str "url"
          else lookupTotal snak "datatype", snakTag snak⟩, rfl, ?_, rfl⟩
        simp [snakValueSpec, hA2, hB, hC]
      · rw [if_neg hC] at hshape ⊢
        by_cases hD : (snakTag snak).eqStr "wikibase-entityid" = true
        · rw [if_pos hD] at hshape ⊢
          simp only [get_eq_of_dict hshape, exc_bind_ok]
          by_cases hP : (lookupTotal (snakDataValue snak) "entity-type").eqStr "property" = true
          · rw [if_pos hP]
            simp only [exc_pure]
            refine ⟨⟨.str ("P" ++ pyStr (lookupTotal (snakDataValue snak) "numeric-id")),
              lookupTotal (snakDataValue snak) "entity-type", snakTag snak⟩, rfl, ?_, rfl⟩
            simp [snakValueSpec, hA2, hB, hC, hD, hP]
          · rw [if_neg hP]
            simp only [exc_pure]
            refine ⟨⟨lookupTotal (snakDataValue snak) "id",
              lookupTotal (snakDataValue snak) "entity-type", snakTag snak⟩, rfl, ?_, rfl⟩
            simp [snakValueSpec, hA2, hB, hC, hD, hP]
        · rw [if_neg hD] at hshape ⊢
          by_cases hE : (snakTag snak).eqStr "time" = true
          · rw [if_pos hE] at hshape ⊢
            simp only [get_eq_of_dict hshape, exc_bind_ok, exc_pure]
            refine ⟨⟨time_formatter (lookupTotal (snakDataValue snak) "time"),
              .str "time", snakTag snak⟩, rfl, ?_, rfl⟩
            simp [snakValueSpec, hA2, hB, hC, hD, hE]
          · rw [if_neg hE] at hshape ⊢
            unfold quantityHasAmount
            by_cases hQ : (snakTag snak).eqStr "quantity" = true
            · rw [if_pos hQ] at hshape ⊢
              have hM : (snakTag snak).eqStr "monolingualtext" = false :=
                eqStr_exclusive hQ (by decide)
              by_cases hDv : isDictB (snakDataValue snak) = true
              · rw [if_pos hDv] at hshape
                simp only [pyIn_eq_of_dict hDv, exc_bind_ok]
                by_cases hAm : hasKey (snakDataValue snak) "amount" = true
                · rw [if_pos hAm] at hshape ⊢
                  simp only [get_eq_of_dict hDv, exc_bind_ok]
                  rw [pyIntOrFloat_ok _ hshape]
                  simp only [exc_bind_ok, exc_pure]
                  refine ⟨⟨intElseFloatSpec (lookupTotal (snakDataValue snak) "amount"),
                    lookupTotal snak "datatype", snakTag snak⟩, rfl, ?_, rfl⟩
                  simp [snakValueSpec, quantityWithAmount, hA2, hB, hC, hD, hE, hQ, hAm]
                · rw [if_neg hAm]
                  rw [if_neg (by simp [hM])]
                  simp only [exc_pure]
                  refine ⟨⟨.str ("Unable To Parse Value " ++ pyStr (snakTag snak)),
                    lookupTotal snak "datatype", snakTag snak⟩, rfl, ?_, rfl⟩
                  have hAm' : hasKey (snakDataValue snak) "amount" = false := by
                    simpa using hAm
                  simp [snakValueSpec, quantityWithAmount, hA2, hB, hC, hD, hE, hQ, hAm', hM]
              · rw [if_neg hDv] at hshape
                cases hdva : snakDataValue snak with
                | str sv =>
                  rw [hdva] at hshape
                  simp only [pyIn, exc_bind_ok]
                  rw [show charsContains ("amount".toList) sv.toList = false from by
                    simpa using hshape]
                  rw [if_neg (by simp)]
                  rw [if_neg (by simp [hM])]
                  simp only [exc_pure]
                  refine ⟨⟨.str ("Unable To Parse Value " ++ pyStr (snakTag snak)),
                    lookupTotal snak "datatype", snakTag snak⟩, rfl, ?_, rfl⟩
                  simp [snakValueSpec, quantityWithAmount, hasKey, hA2, hB, hC, hD, hE, hQ, hM, hdva]
                | list xs =>
                  rw [hdva] at hshape
                  simp only [pyIn, exc_bind_ok]
                  rw [show (xs.any (fun x => x.eqStr "amount")) = false from by
                    simpa using hshape]
                  rw [if_neg (by simp)]
                  rw [if_neg (by simp [hM])]
                  simp only [exc_pure]
                  refine ⟨⟨.str ("Unable To Parse Value " ++ pyStr (snakTag snak)),
                    lookupTotal snak "datatype", snakTag snak⟩, rfl, ?_, rfl⟩
                  simp [snakValueSpec, quantityWithAmount, hasKey, hA2, hB, hC, hD, hE, hQ, hM, hdva]
                | int n => rw [hdva] at hshape; simp at hshape
                | float s => rw [hdva] at hshape; simp at hshape
                | bool b => rw [hdva] at hshape; simp at hshape
                | none => rw [hdva] at hshape; simp at hshape
                | dict xs => simp [isDictB, hdva] at hDv
            · rw [if_neg hQ] at hshape ⊢
              simp only [exc_pure, exc_bind_ok]
              rw [if_neg (by simp)]
              by_cases hMono : (snakTag snak).eqStr "monolingualtext" = true
              · rw [if_pos hMono] at hshape ⊢
                simp only [getD_eq_of_dict hshape, exc_bind_ok, exc_pure]
                refine ⟨⟨.str ("\"" ++ pyStr (lookupTotalD (snakDataValue snak) "text" (.str "")) ++
                  "\" (language: " ++
                  pyStr (lookupTotalD (snakDataValue snak) "language" (.str "unknown")) ++ ")"),
                  lookupTotal snak "datatype", snakTag snak⟩, rfl, ?_, rfl⟩
                have hQ' : (snakTag snak).eqStr "quantity" = false := by simpa using hQ
                simp [snakValueSpec, quantityWithAmount, hA2, hB, hC, hD, hE, hQ', hMono]
              · rw [if_neg hMono]
                refine ⟨⟨.str ("Unable To Parse Value " ++ pyStr (snakTag snak)),
                  lookupTotal snak "datatype", snakTag snak⟩, rfl, ?_, rfl⟩
                have hQ' : (snakTag snak).eqStr "quantity" = false := by simpa using hQ
                simp [snakValueSpec, quantityWithAmount, hA2, hB, hC, hD, hE, hQ', hMono]

/-- The fixed enumeration of value-type tags named by claim C1. -/
def claimEnumerationTags : List String :=
  ["string", "wikibase-entityid", "time", "quantity", "monolingualtext",
   "external-id", "image"]

/-- A structurally complete quantity snak with no `amount` field. -/
def quantityNoAmountSnak : PyVal :=
  .dict [("snaktype", .str "value"), ("datatype", .str "quantity"),
    ("datavalue", .dict [("type", .str "quantity"), ("value", .dict [])])]

/-- C1 counterexample to the claim as stated: a quantity snak whose data
value lacks an `amount` has its main data present and a tag inside the
claim's enumeration, yet `parse_snak` returns the `Unable To Parse Value`
string — which the claim reserves for tags outside the enumeration —
rather than a value formatted by the quantity rule (int else float). -/
theorem parse_snak_quantity_without_amount_counterexample :
    parse_snak trivialEnv "P1128" quantityNoAmountSnak =
      .ok (some ⟨.str "Unable To Parse Value quantity", .str "quantity",
        .str "quantity"⟩) ∧
      claimEnumerationTags.contains "quantity" = true :=
  ⟨rfl, rfl⟩

/-- A well-formed monolingual-text snak. -/
def monolingualSnakExample : PyVal :=
  .dict [("snaktype", .str "value"), ("datatype", .str "monolingualtext"),
    ("datavalue", .dict [("type", .str "monolingualtext"),
      ("value", .dict [("text", .str "Hi"), ("language", .str "en")])])]

/-- C1 witness: the theorem applied to a concrete monolingual-text snak,
its well-formedness discharged by evaluation. -/
theorem parse_snak_value_formatting_witness :
    wellFormedSnak trivialEnv "P1476" monolingualSnakExample = true ∧
      ∃ r, parse_snak trivialEnv "P1476" monolingualSnakExample = .ok (some r) ∧
        r.value = snakValueSpec trivialEnv "P1476" monolingualSnakExample ∧
        r.type = snakTag monolingualSnakExample :=
  ⟨rfl, parse_snak_value_formatting trivialEnv "P1476" monolingualSnakExample rfl⟩

/-- Spec-side: whether a parsed claim group has at least one value parsed as
an external id (the condition that routes it to `external_links`). -/
def hasExternalIdValue (g : ParsedClaim) : Bool :=
  g.values.any (fun v => v.parse_type.eqStr "external-id")

/-- Spec-side: the values a claim group contributes to `categories` — the
`P31`/`P279` values not parsed as external ids. -/
def categoryValuesOf (g : ParsedClaim) : List ParsedValue :=
  if ["P31", "P279"].contains g.pid then
    g.values.filter (fun v => !v.parse_type.eqStr "external-id")
  else []

/-- One claim group mapped through the parser: its property id with its
parsed values. -/
def parseClaimGroupOnly (env : Env) (kv : String × PyVal) :
    Except PyExc ParsedClaim := do
  let t ← processClaimGroup env kv.1 kv.2
  pure ⟨kv.1, t.1⟩

/-- Spec-side: the parsed claim groups of an item — each claim group of the
fetched entity JSON, in the sorted claim order, mapped through the snak
parser. -/
def parsedClaimGroups (env : Env) (qid : String) :
    Except PyExc (List ParsedClaim) := do
  let item := match env.itemJson qid with
    | some v => v
    | Option.none => PyVal.none
  let claims ← get_claims_from_json item
  let entries ← match claims with
    | .dict es => Except.ok es
    | _ => Except.error PyExc.attributeError
  let keyed ← entries.mapM (fun kv => do
    let n ← _entity_id_to_int kv.1
    pure (n, kv))
  let sorted_claims := (stableSort (fun a b => a.1 ≤ b.1) keyed).map Prod.snd
  sorted_claims.mapM (parseClaimGroupOnly env)

/-- Folding `claimValueStep` over a claim group's list: the value list is
extended by the parsed values in order, the external-id flag is the old flag
or-ed with whether any new value parsed as an external id, and `categories`
gains the new non-external values exactly when the property is `P31` or
`P279`. -/
theorem claimValueFold_spec (env : Env) (pid : String) :
    ∀ (l : List PyVal) (vl0 : List ParsedValue) (aex0 : Bool)
      (cats0 : List ParsedValue) (vl : List ParsedValue) (aex : Bool)
      (cats : List ParsedValue),
      l.foldlM (claimValueStep env pid) (vl0, aex0, cats0) = .ok (vl, aex, cats) →
      ∃ d, vl = vl0 ++ d ∧
        aex = (aex0 || d.any (fun v => v.parse_type.eqStr "external-id")) ∧
        cats = cats0 ++ (if ["P31", "P279"].contains pid then
          d.filter (fun v => !v.parse_type.eqStr "external-id") else []) := by
  intro l
  induction l with
  | nil =>
    intro vl0 aex0 cats0 vl aex cats h
    rw [List.foldlM_nil] at h
    simp only [exc_pure, Except.ok.injEq, Prod.mk.injEq] at h
    obtain ⟨e1, e2, e3⟩ := h
    exact ⟨[], by simp [← e1, ← e2, ← e3]⟩
  | cons j l ih =>
    intro vl0 aex0 cats0 vl aex cats h
    rw [List.foldlM_cons] at h
    obtain ⟨acc1, hstep, hrest⟩ := exc_bind_ok_inv h
    unfold claimValueStep at hstep
    obtain ⟨ms, hms, hstep⟩ := exc_bind_ok_inv hstep
    obtain ⟨pr, hpr, hstep⟩ := exc_bind_ok_inv hstep
    cases pr with
    | none =>
      simp only [exc_pure] at hstep
      cases hstep
      exact ih _ _ _ _ _ _ hrest
    | some v =>
      obtain ⟨refs, hrefs, hstep⟩ := exc_bind_ok_inv hstep
      obtain ⟨quals, hquals, hstep⟩ := exc_bind_ok_inv hstep
      simp only [exc_pure] at hstep
      cases hstep
      obtain ⟨d, hd1, hd2, hd3⟩ := ih _ _ _ _ _ _ hrest
      refine ⟨⟨v.value, v.parse_type, v.type, refs, quals⟩ :: d, ?_, ?_, ?_⟩
      · rw [hd1]
        simp
      · rw [hd2]
        simp [List.any_cons, Bool.or_assoc]
      · rw [hd3]
        by_cases hc : (["P31", "P279"].contains pid) = true
        · have hor : pid = "P31" ∨ pid = "P279" := by simpa using hc
          by_cases he : v.parse_type.eqStr "external-id" = true
          · rw [if_neg (by simp [he])]
            simp [hor, he, List.filter_cons]
          · have he2 : v.parse_type.eqStr "external-id" = false := by
              simpa using he
            rw [if_pos ⟨by simpa using he, hc⟩]
            simp [hor, he2, List.filter_cons]
        · have hor : ¬ (pid = "P31" ∨ pid = "P279") := by simpa using hc
          rw [if_neg (fun hcon => hc hcon.2)]
          simp [hor]

/-- For one parsed claim group, the external-id flag holds exactly when some
value parsed as an external id, and the category contribution is the group's
non-external values when the property is `P31`/`P279`, else nothing. -/
theorem processClaimGroup_spec (env : Env) (pid : String) (cd : PyVal)
    (vl : List ParsedValue) (aex : Bool) (cats : List ParsedValue)
    (h : processClaimGroup env pid cd = .ok (vl, aex, cats)) :
    aex = vl.any (fun v => v.parse_type.eqStr "external-id") ∧
      cats = (if ["P31", "P279"].contains pid then
        vl.filter (fun v => !v.parse_type.eqStr "external-id") else []) := by
  unfold processClaimGroup at h
  obtain ⟨l, hl, h⟩ := exc_bind_ok_inv h
  obtain ⟨d, hd1, hd2, hd3⟩ := claimValueFold_spec env pid l [] false [] vl aex cats h
  subst hd1
  simp only [List.nil_append] at hd2 hd3 ⊢
  exact ⟨by simpa using hd2, hd3⟩

/-- The outer fold of `_add_claim_data_item_context` equals mapping every
group through the parser and then routing: groups with an external-id value
are appended to the external list, the others to the claims list, and
`categories` collects every group's `P31`/`P279` non-external values. -/
theorem claimRouting_fold (env : Env) :
    ∀ (l : List (String × PyVal)) (cl ex : List ParsedClaim)
      (cat : List ParsedValue),
      l.foldlM (claimGroupStep env) (cl, ex, cat) =
        (l.mapM (parseClaimGroupOnly env)).map
          (fun gs => (cl ++ gs.filter (fun g => !hasExternalIdValue g),
                      ex ++ gs.filter (fun g => hasExternalIdValue g),
                      cat ++ gs.flatMap categoryValuesOf)) := by
  intro l
  induction l with
  | nil =>
    intro cl ex cat
    rw [List.foldlM_nil, List.mapM_nil]
    simp
  | cons kv l ih =>
    intro cl ex cat
    rw [List.foldlM_cons, List.mapM_cons]
    cases hp : processClaimGroup env kv.1 kv.2 with
    | error e =>
      rw [show claimGroupStep env (cl, ex, cat) kv = .error e from by
        simp [claimGroupStep, hp]]
      rw [show parseClaimGroupOnly env kv = .error e from by
        simp [parseClaimGroupOnly, hp]]
      simp
    | ok t =>
      obtain ⟨vl, aex, cats⟩ := t
      obtain ⟨hax, hcats⟩ := processClaimGroup_spec env kv.1 kv.2 vl aex cats hp
      have hg : parseClaimGroupOnly env kv = .ok ⟨kv.1, vl⟩ := by
        simp [parseClaimGroupOnly, hp]
      rw [hg, exc_bind_ok]
      by_cases hax2 : aex = true
      · rw [show claimGroupStep env (cl, ex, cat) kv =
            .ok (cl, ex ++ [⟨kv.1, vl⟩], cat ++ cats) from by
          simp [claimGroupStep, hp, hax2]]
        rw [exc_bind_ok, ih]
        have hhe : hasExternalIdValue ⟨kv.1, vl⟩ = true := by
          simp only [hasExternalIdValue]
          rw [← hax]
          exact hax2
        cases hm : l.mapM (parseClaimGroupOnly env) with
        | error e => simp
        | ok gs =>
          simp only [exc_map_ok, exc_bind_ok, exc_pure, Except.ok.injEq, Prod.mk.injEq]
          refine ⟨?_, ?_, ?_⟩
          · simp [List.filter_cons, hhe]
          · simp [List.filter_cons, hhe]
          · simp only [List.flatMap_cons, List.append_assoc]
            congr 1
            rw [hcats]
            simp [categoryValuesOf]
      · have hax3 : aex = false := by simpa using hax2
        rw [show claimGroupStep env (cl, ex, cat) kv =
            .ok (cl ++ [⟨kv.1, vl⟩], ex, cat ++ cats) from by
          simp [claimGroupStep, hp, hax3]]
        rw [exc_bind_ok, ih]
        have hhe : hasExternalIdValue ⟨kv.1, vl⟩ = false := by
          simp only [hasExternalIdValue]
          rw [← hax]
          exact hax3
        cases hm : l.mapM (parseClaimGroupOnly env) with
        | error e => simp
        | ok gs =>
          simp only [exc_map_ok, exc_bind_ok, exc_pure, Except.ok.injEq, Prod.mk.injEq]
          refine ⟨?_, ?_, ?_⟩
          · simp [List.filter_cons, hhe]
          · simp [List.filter_cons, hhe]
          · simp only [List.flatMap_cons, List.append_assoc]
            congr 1
            rw [hcats]
            simp [categoryValuesOf]

/-- An environment whose fetched entity has a single `P31` claim whose main
snak parses as an external id (datatype `external-id`), with no registered
formatter URL for the property. -/
def p31ExternalEnv : Env :=
  ⟨fun _ => some (.dict [("claims", .dict [("P31", .list [.dict [("mainsnak",
      .dict [("snaktype", .str "value"),
             ("datatype", .str "external-id"),
             ("datavalue", .dict [("type", .str "string"),
                                  ("value", .str "XYZ")])])]])])]),
   fun _ => [], fun _ => Option.none, fun _ => false, fun _ => [], "en", "en"⟩

/-- The parsed `P31` claim group of `p31ExternalEnv`'s item: one value parsed
as an external id (no formatter URL, so `url` is `None`). -/
def exampleExternalGroup : ParsedClaim :=
  ⟨"P31", [⟨.dict [("url", PyVal.none), ("label", .str "XYZ")],
            .str "external-id", .str "string", [], []⟩]⟩

/-- The context `item_detail_parse` builds for `p31ExternalEnv`'s item. -/
def exampleItemContext : ItemContext :=
  ⟨.list [], .str "", .str "Item Q7", "Q7", "http://www.wikidata.org/entity/Q7",
   some ⟨[exampleExternalGroup], [], []⟩⟩

/-- C2 (amended): whenever the raw entity JSON is fetched and
`item_detail_parse` (with claims requested) succeeds, the context's claim
data routes each parsed claim group to exactly one of the two lists —
`external_links` holds exactly the groups with at least one value parsed as
`external-id`, `claims` exactly the others — and `categories` is exactly the
parsed values of the `P31`/`P279` groups that were NOT parsed as external
ids, in group order. -/
theorem item_detail_parse_claim_routing (env : Env) (qid : String)
    (ctx : ItemContext) (gs : List ParsedClaim)
    (h : item_detail_parse env qid true = .ok (.item ctx))
    (hg : parsedClaimGroups env qid = .ok gs) :
    ctx.claimData = some ⟨gs.filter (fun g => hasExternalIdValue g),
                          gs.filter (fun g => !hasExternalIdValue g),
                          gs.flatMap categoryValuesOf⟩ := by
  unfold item_detail_parse at h
  unfold parsedClaimGroups at hg
  cases hi : env.itemJson qid with
  | none =>
    rw [hi] at h
    simp [PyVal.truthy] at h
  | some itemv =>
    rw [hi] at h hg
    simp only [] at h hg
    by_cases ht : itemv.truthy = true
    · rw [if_neg (not_not_intro ht)] at h
      simp only [if_true] at h
      obtain ⟨label, hlabel, h⟩ := exc_bind_ok_inv h
      obtain ⟨aliases, haliases, h⟩ := exc_bind_ok_inv h
      obtain ⟨description, hdescription, h⟩ := exc_bind_ok_inv h
      obtain ⟨cd, hcd, h⟩ := exc_bind_ok_inv h
      obtain ⟨y, hy, h⟩ := exc_bind_ok_inv h
      simp only [exc_pure, Except.ok.injEq] at hy
      subst hy
      simp only [exc_pure, Except.ok.injEq, ItemResult.item.injEq] at h
      subst h
      unfold _add_claim_data_item_context at hcd
      obtain ⟨claims, hclaims, hcd⟩ := exc_bind_ok_inv hcd
      obtain ⟨claims2, hclaims2, hg⟩ := exc_bind_ok_inv hg
      injection (hclaims.symm.trans hclaims2) with e
      subst e
      cases claims with
      | dict es =>
        simp only [exc_bind_ok] at hcd hg
        obtain ⟨keyed, hkeyed, hcd⟩ := exc_bind_ok_inv hcd
        obtain ⟨keyed2, hkeyed2, hg⟩ := exc_bind_ok_inv hg
        injection (hkeyed.symm.trans hkeyed2) with e
        subst e
        rw [claimRouting_fold env ((stableSort (fun a b => a.1 ≤ b.1) keyed).map Prod.snd)
          [] [] [], hg] at hcd
        simp only [exc_map_ok, exc_bind_ok, exc_pure, Except.ok.injEq,
          List.nil_append] at hcd
        subst hcd
        rfl
      | str s => simp at hcd
      | int n => simp at hcd
      | float f => simp at hcd
      | bool b => simp at hcd
      | none => simp at hcd
      | list xs => simp at hcd
    · simp [ht] at h

/-- C2 witness: the routing theorem applied to a concrete item whose single
`P31` claim group parses to one external-id value. -/
theorem item_detail_parse_claim_routing_witness :
    exampleItemContext.claimData =
      some ⟨[exampleExternalGroup].filter (fun g => hasExternalIdValue g),
            [exampleExternalGroup].filter (fun g => !hasExternalIdValue g),
            [exampleExternalGroup].flatMap categoryValuesOf⟩ :=
  item_detail_parse_claim_routing p31ExternalEnv "Q7" exampleItemContext
    [exampleExternalGroup] rfl rfl

/-- C2 counterexample: an item whose `P31` claim has one parsed value (an
external id). The claim's reading would put that value in `categories` (the
parsed values of the `P31`/`P279` claims) and the group among the claims;
the code instead returns empty `categories` and routes the whole group to
`external_links`. -/
theorem item_detail_parse_categories_counterexample :
    item_detail_parse p31ExternalEnv "Q7" true = .ok (.item exampleItemContext) ∧
    exampleItemContext.claimData =
      some ⟨[exampleExternalGroup], [], ([] : List ParsedValue)⟩ ∧
    exampleExternalGroup.pid = "P31" ∧
    exampleExternalGroup.values.length = 1 :=
  ⟨rfl, rfl, rfl, rfl⟩
